import Mathlib

/-!
Verification of the StockApp indicator / trigger-detection engine.

The development shallowly embeds the JavaScript indicator modules
(`nWeekLow.js`, `nWeekHigh.js`, `movingAverage.js`, `dailyChange.js`,
`rsi.js`, `bollingerBands.js`), the alarm-catalogue builder
(`calculateAlarmList` / `calculateTechnicalIndicators` in
`UpdateSingleStockIndicators`) and the composite same-day matcher
(`checkIfAllAlarmsTriggeredOnDate` in `CheckUserAlerts`).

Modelling conventions:
* prices are rationals (the JS engine computes with IEEE doubles; the
  algebraic structure of every claim is about exact comparisons, which ℚ
  models faithfully);
* calendar dates on the builder side are natural numbers (the builder only
  copies `prices[i].date` around, never computes with it); on the matcher
  side dates are the persisted ISO strings, exactly as the matcher sees them;
* `Math.sqrt` (used only inside the Bollinger-band standard deviation) has
  no exact rational counterpart, so the Bollinger definitions and the
  builder are parameterized by the square-root function `sq : ℚ → ℚ`;
  every theorem below holds for every choice of `sq`;
* backward `for` loops (`for (i = len-1; i >= lo; i--)`) are translated by
  the descending scanner `backScan`, indexed by the offset `i - lo`.
-/

/-- A daily price point, as parsed from the CSV rows
(`{date, open, high, low, close, volume}`).  The field `open` is a Lean
keyword, hence the `P` suffix. -/
structure PricePoint where
  date : Nat
  openP : Rat
  high : Rat
  low : Rat
  close : Rat
  volume : Int
deriving DecidableEq, Repr

/-- `prices[i].close`, total with junk value 0 out of range (the sources
only read it under bounds guards). -/
def closeAt (prices : List PricePoint) (i : Nat) : Rat :=
  ((prices.get? i).map (·.close)).getD 0

/-- `prices[i].low`, total with junk value 0 out of range. -/
def lowAt (prices : List PricePoint) (i : Nat) : Rat :=
  ((prices.get? i).map (·.low)).getD 0

/-- `prices[i].high`, total with junk value 0 out of range. -/
def highAt (prices : List PricePoint) (i : Nat) : Rat :=
  ((prices.get? i).map (·.high)).getD 0

/-- `prices[i].date` as an optional value (`prices[i].date` in the sources
is always read at an index the enclosing loop has bounds-checked). -/
def dateAt (prices : List PricePoint) (i : Nat) : Option Nat :=
  (prices.get? i).map (·.date)

/-- The closes of `prices.slice(a, a + n)`: the JS windows
`prices.slice(startIdx, currentIndex + 1).map(p => p.close)`. -/
def sliceCloses (prices : List PricePoint) (a n : Nat) : List Rat :=
  ((prices.drop a).take n).map (·.close)

/-- `Math.min(...xs)` on a nonempty list (the sources only apply it to
nonempty windows; the `[]` case is junk). -/
def listMin : List Rat → Rat
  | [] => 0
  | [x] => x
  | x :: y :: xs => min x (listMin (y :: xs))

/-- `Math.max(...xs)` on a nonempty list. -/
def listMax : List Rat → Rat
  | [] => 0
  | [x] => x
  | x :: y :: xs => max x (listMax (y :: xs))

/-- Descending scan: `backScan p lo k` checks indices
`lo + k, lo + k - 1, …, lo` in that order and returns the first index
satisfying `p` (hence the greatest satisfying index in `[lo, lo+k]`),
or `none`. -/
def backScan (p : Nat → Bool) (lo : Nat) : Nat → Option Nat
  | 0 => if p lo then some lo else none
  | k + 1 => if p (lo + k + 1) then some (lo + k + 1) else backScan p lo k

/-- Translation of the backward loops
`for (let i = prices.length - 1; i >= lo; i--)`: the loop body runs iff
`len - 1 ≥ lo`; index `i` corresponds to offset `i - lo`. -/
def findBackFrom (p : Nat → Bool) (lo len : Nat) : Option Nat :=
  if len ≤ lo then none else backScan p lo (len - 1 - lo)

namespace NWeekLow

/-- Result object of `checkNWeekLowTrigger` / `checkNWeekHighTrigger`
(the derived fields `range` and `currentClose` of the JS object are
omitted; no caller reads them). -/
structure NWeekCheck where
  isTriggered : Bool
  threshold : Option Rat
  windowLow : Option Rat
  windowHigh : Option Rat
  insufficient : Bool
deriving DecidableEq, Repr

/-- `checkNWeekLowTrigger(prices, currentIndex, weeks, fluctuation)`
from `nWeekLow.js`.  `startIdx < 0` is `currentIndex < days` for the
natural-number index. -/
def checkNWeekLowTrigger (prices : List PricePoint) (currentIndex weeks fluctuation : Nat) :
    NWeekCheck :=
  let days := weeks * 5
  if currentIndex < days ∨ prices.length ≤ currentIndex then
    ⟨false, none, none, none, true⟩
  else
    let startIdx := currentIndex - days
    -- window = prices.slice(startIdx, currentIndex + 1); its closes:
    let windowCloses := sliceCloses prices startIdx (days + 1)
    if windowCloses.length < days + 1 then
      ⟨false, none, none, none, true⟩
    else
      let windowLow := listMin windowCloses
      let windowHigh := listMax windowCloses
      let range := windowHigh - windowLow
      let threshold := windowLow + range * ((fluctuation : Rat) / 100)
      let currentClose := closeAt prices currentIndex
      ⟨decide (currentClose ≤ threshold), some threshold, some windowLow, some windowHigh, false⟩

/-- `findMostRecentTriggerDate(prices, weeks, fluctuation)` from
`nWeekLow.js`: backward scan from the last index down to `days`. -/
def findMostRecentTriggerDate (prices : List PricePoint) (weeks fluctuation : Nat) :
    Option Nat :=
  let days := weeks * 5
  (findBackFrom (fun i => (checkNWeekLowTrigger prices i weeks fluctuation).isTriggered)
      days prices.length).bind (dateAt prices)

/-- One element of the array returned by `calculateAllNWeekLowTriggers`
(and by `calculateAllNWeekHighTriggers`). -/
structure NWeekTrigger where
  weeks : Nat
  fluctuation : Nat
  previousTriggeredDate : Option Nat
deriving DecidableEq, Repr

/-- `calculateAllNWeekLowTriggers(prices, weekPeriods, fluctuations)` from
`nWeekLow.js`.  NOTE the `continue`: a week period with
`prices.length < days` is skipped and contributes no trigger at all.
(The logger argument is dropped; it only formats messages.) -/
def calculateAllNWeekLowTriggers (prices : List PricePoint)
    (weekPeriods fluctuations : List Nat) : List NWeekTrigger :=
  weekPeriods.flatMap fun weeks =>
    if prices.length < weeks * 5 then []
    else fluctuations.map fun fluctuation =>
      ⟨weeks, fluctuation, findMostRecentTriggerDate prices weeks fluctuation⟩

end NWeekLow

namespace NWeekHigh

/-- `checkNWeekHighTrigger(prices, currentIndex, weeks, fluctuation)` from
`nWeekHigh.js`: threshold `windowHigh - range·fluctuation/100`, trigger on
`close >= threshold`. -/
def checkNWeekHighTrigger (prices : List PricePoint) (currentIndex weeks fluctuation : Nat) :
    NWeekLow.NWeekCheck :=
  let days := weeks * 5
  if currentIndex < days ∨ prices.length ≤ currentIndex then
    ⟨false, none, none, none, true⟩
  else
    let startIdx := currentIndex - days
    let windowCloses := sliceCloses prices startIdx (days + 1)
    if windowCloses.length < days + 1 then
      ⟨false, none, none, none, true⟩
    else
      let windowLow := listMin windowCloses
      let windowHigh := listMax windowCloses
      let range := windowHigh - windowLow
      let threshold := windowHigh - range * ((fluctuation : Rat) / 100)
      let currentClose := closeAt prices currentIndex
      ⟨decide (threshold ≤ currentClose), some threshold, some windowLow, some windowHigh, false⟩

/-- `findMostRecentTriggerDate(prices, weeks, fluctuation)` from
`nWeekHigh.js`. -/
def findMostRecentTriggerDate (prices : List PricePoint) (weeks fluctuation : Nat) :
    Option Nat :=
  let days := weeks * 5
  (findBackFrom (fun i => (checkNWeekHighTrigger prices i weeks fluctuation).isTriggered)
      days prices.length).bind (dateAt prices)

/-- `calculateAllNWeekHighTriggers(prices, weekPeriods, fluctuations)` from
`nWeekHigh.js`: unlike the low variant it never skips a combination. -/
def calculateAllNWeekHighTriggers (prices : List PricePoint)
    (weekPeriods fluctuations : List Nat) : List NWeekLow.NWeekTrigger :=
  weekPeriods.flatMap fun weeks =>
    fluctuations.map fun fluctuation =>
      ⟨weeks, fluctuation, findMostRecentTriggerDate prices weeks fluctuation⟩

end NWeekHigh

namespace MovingAverage

/-- `calculateMA(prices, currentIndex, period)` from `movingAverage.js`:
arithmetic mean of the closes of `prices.slice(currentIndex-period+1,
currentIndex+1)`, `null` when `currentIndex < period - 1`. -/
def calculateMA (prices : List PricePoint) (currentIndex period : Nat) : Option Rat :=
  if currentIndex + 1 < period then none
  else
    some ((sliceCloses prices (currentIndex + 1 - period) period).sum / (period : Rat))

/-- Direction of a detected two-MA cross (`'golden'` / `'death'`). -/
inductive Cross where
  | golden
  | death
deriving DecidableEq, Repr, BEq

/-- Result object of `checkMACrossMA`. -/
structure MACrossCheck where
  crossed : Bool
  direction : Option Cross
  shortMA : Option Rat
  longMA : Option Rat
  prevShortMA : Option Rat
  prevLongMA : Option Rat
deriving DecidableEq, Repr

/-- `checkMACrossMA(prices, currentIndex, shortPeriod, longPeriod)` from
`movingAverage.js`. -/
def checkMACrossMA (prices : List PricePoint) (currentIndex shortPeriod longPeriod : Nat) :
    MACrossCheck :=
  if currentIndex < longPeriod ∨ currentIndex < 1 then
    ⟨false, none, none, none, none, none⟩
  else
    let shortMA := calculateMA prices currentIndex shortPeriod
    let longMA := calculateMA prices currentIndex longPeriod
    let prevShortMA := calculateMA prices (currentIndex - 1) shortPeriod
    let prevLongMA := calculateMA prices (currentIndex - 1) longPeriod
    match shortMA, longMA, prevShortMA, prevLongMA with
    | some s, some l, some ps, some pl =>
      let goldenCross := decide (ps ≤ pl) && decide (l < s)
      let deathCross := decide (pl ≤ ps) && decide (s < l)
      ⟨goldenCross || deathCross,
       if goldenCross then some .golden else if deathCross then some .death else none,
       some s, some l, some ps, some pl⟩
    | s, l, ps, pl => ⟨false, none, s, l, ps, pl⟩

/-- Direction filter of the `findMostRecent…` searches
(`'golden' | 'death' | 'both'`). -/
inductive CrossFilter where
  | golden
  | death
  | both
deriving DecidableEq, Repr

/-- `findMostRecentMACrossMA(prices, shortPeriod, longPeriod, direction)`
from `movingAverage.js`: backward scan from the last index down to
`longPeriod`; a hit is a crossed check whose direction passes the filter. -/
def findMostRecentMACrossMA (prices : List PricePoint) (shortPeriod longPeriod : Nat)
    (direction : CrossFilter) : Option Nat :=
  (findBackFrom
      (fun i =>
        let result := checkMACrossMA prices i shortPeriod longPeriod
        result.crossed &&
          (match direction with
           | .both => true
           | .golden => result.direction == some .golden
           | .death => result.direction == some .death))
      longPeriod prices.length).bind (dateAt prices)

/-- The four alarm directions of the MA-cross family
(`'above' | 'below' | 'cross-up' | 'cross-down'`). -/
inductive MADirection where
  | above
  | below
  | crossUp
  | crossDown
deriving DecidableEq, Repr

/-- The capitalized direction fragment used in alarm names
(`'cross-up'.split('-').map(capitalize).join('')` etc.). -/
def MADirection.directionStr : MADirection → String
  | .above => "Above"
  | .below => "Below"
  | .crossUp => "CrossUp"
  | .crossDown => "CrossDown"

/-- `findMostRecentMAPosition(prices, ma1Period, ma2Period, direction)` from
`movingAverage.js`: backward scan from the last index down to
`max(ma1Period, ma2Period) - 1`; indices with an undefined MA are skipped
(`continue`), i.e. are not hits. -/
def findMostRecentMAPosition (prices : List PricePoint) (ma1Period ma2Period : Nat)
    (direction : MADirection) : Option Nat :=
  let maxPeriod := max ma1Period ma2Period
  (findBackFrom
      (fun i =>
        match calculateMA prices i ma1Period, calculateMA prices i ma2Period with
        | some ma1, some ma2 =>
          match direction with
          | .above => decide (ma2 < ma1)
          | .below => decide (ma1 < ma2)
          | _ => false
        | _, _ => false)
      (maxPeriod - 1) prices.length).bind (dateAt prices)

/-- One element of the array returned by `calculateAllMACrossTriggers`. -/
structure MATrigger where
  ma1Period : Nat
  ma2Period : Nat
  direction : MADirection
  previousTriggeredDate : Option Nat
deriving DecidableEq, Repr

/-- `calculateAllMACrossTriggers(prices, maPeriods, directions)` from
`movingAverage.js`: all pairs `(maPeriods[i], maPeriods[j])` with `i < j`,
each with every direction. -/
def calculateAllMACrossTriggers (prices : List PricePoint)
    (maPeriods : List Nat) (directions : List MADirection) : List MATrigger :=
  (List.range maPeriods.length).flatMap fun i =>
    ((List.range maPeriods.length).drop (i + 1)).flatMap fun j =>
      let ma1Period := maPeriods.getD i 0
      let ma2Period := maPeriods.getD j 0
      directions.map fun direction =>
        let triggerDate :=
          match direction with
          | .crossUp => findMostRecentMACrossMA prices ma1Period ma2Period .golden
          | .crossDown => findMostRecentMACrossMA prices ma1Period ma2Period .death
          | .above => findMostRecentMAPosition prices ma1Period ma2Period .above
          | .below => findMostRecentMAPosition prices ma1Period ma2Period .below
        ⟨ma1Period, ma2Period, direction, triggerDate⟩

end MovingAverage

namespace DailyChange

/-- Result object of `checkDailyLossTrigger` / `checkDailyGainTrigger`. -/
structure DailyCheck where
  isTriggered : Bool
  dailyChangePercent : Option Rat
  previousClose : Option Rat
  currentClose : Option Rat
deriving DecidableEq, Repr

/-- `checkDailyLossTrigger(prices, currentIndex, thresholdPercent)` from
`dailyChange.js`: `pct = (close[i]-close[i-1])/close[i-1]·100`, trigger on
`pct <= -threshold`; requires `1 <= i < length`. -/
def checkDailyLossTrigger (prices : List PricePoint) (currentIndex : Nat)
    (thresholdPercent : Rat) : DailyCheck :=
  if currentIndex < 1 ∨ prices.length ≤ currentIndex then
    ⟨false, none, none, none⟩
  else
    let previousClose := closeAt prices (currentIndex - 1)
    let currentClose := closeAt prices currentIndex
    let dailyChangePercent := (currentClose - previousClose) / previousClose * 100
    ⟨decide (dailyChangePercent ≤ -thresholdPercent),
     some dailyChangePercent, some previousClose, some currentClose⟩

/-- `checkDailyGainTrigger(prices, currentIndex, thresholdPercent)` from
`dailyChange.js`: trigger on `pct >= threshold`. -/
def checkDailyGainTrigger (prices : List PricePoint) (currentIndex : Nat)
    (thresholdPercent : Rat) : DailyCheck :=
  if currentIndex < 1 ∨ prices.length ≤ currentIndex then
    ⟨false, none, none, none⟩
  else
    let previousClose := closeAt prices (currentIndex - 1)
    let currentClose := closeAt prices currentIndex
    let dailyChangePercent := (currentClose - previousClose) / previousClose * 100
    ⟨decide (thresholdPercent ≤ dailyChangePercent),
     some dailyChangePercent, some previousClose, some currentClose⟩

/-- `findMostRecentDailyLossTriggerDate(prices, thresholdPercent)`:
backward scan from the last index down to 1. -/
def findMostRecentDailyLossTriggerDate (prices : List PricePoint)
    (thresholdPercent : Rat) : Option Nat :=
  (findBackFrom (fun i => (checkDailyLossTrigger prices i thresholdPercent).isTriggered)
      1 prices.length).bind (dateAt prices)

/-- `findMostRecentDailyGainTriggerDate(prices, thresholdPercent)`. -/
def findMostRecentDailyGainTriggerDate (prices : List PricePoint)
    (thresholdPercent : Rat) : Option Nat :=
  (findBackFrom (fun i => (checkDailyGainTrigger prices i thresholdPercent).isTriggered)
      1 prices.length).bind (dateAt prices)

/-- One element of the array returned by `calculateAllDailyChangeTriggers`
(the JS object `{alarmName, type, threshold, previousTriggeredDate}`). -/
structure DailyAlarm where
  alarmName : String
  ty : String
  threshold : Nat
  previousTriggeredDate : Option Nat
deriving DecidableEq, Repr

/-- `calculateAllDailyChangeTriggers(prices)` from `dailyChange.js`:
`DailyLoss1..5Percent` then `DailyGain1..5Percent`. -/
def calculateAllDailyChangeTriggers (prices : List PricePoint) : List DailyAlarm :=
  let thresholds : List Nat := [1, 2, 3, 4, 5]
  (thresholds.map fun t =>
    ⟨"DailyLoss" ++ toString t ++ "Percent", "daily-loss", t,
     findMostRecentDailyLossTriggerDate prices (t : Rat)⟩)
  ++ (thresholds.map fun t =>
    ⟨"DailyGain" ++ toString t ++ "Percent", "daily-gain", t,
     findMostRecentDailyGainTriggerDate prices (t : Rat)⟩)

end DailyChange

namespace RSI

/-- Seed gains: sum of the positive deltas among the first `period` deltas
(`for (i = 1; i <= period; i++) if (change > 0) gains += change`). -/
def seedGains (prices : List PricePoint) (period : Nat) : Rat :=
  ((List.range period).map fun j =>
    let change := closeAt prices (j + 1) - closeAt prices j
    if 0 < change then change else 0).sum

/-- Seed losses: sum of `|change|` over the non-positive deltas among the
first `period` deltas. -/
def seedLosses (prices : List PricePoint) (period : Nat) : Rat :=
  ((List.range period).map fun j =>
    let change := closeAt prices (j + 1) - closeAt prices j
    if 0 < change then 0 else |change|).sum

/-- The running Wilder averages `(avgGain, avgLoss)` after processing index
`period + j`: `wilderAvgs prices period 0` is the seed pair at index
`period`; the step to `j+1` is
`avg = (avg*(period-1) + current)/period` with the delta between indices
`period+j` and `period+j+1`. -/
def wilderAvgs (prices : List PricePoint) (period : Nat) : Nat → Rat × Rat
  | 0 => (seedGains prices period / period, seedLosses prices period / period)
  | j + 1 =>
    let p := wilderAvgs prices period j
    let change := closeAt prices (period + j + 1) - closeAt prices (period + j)
    let gain := if 0 < change then change else 0
    let loss := if change < 0 then |change| else 0
    ((p.1 * ((period : Rat) - 1) + gain) / period,
     (p.2 * ((period : Rat) - 1) + loss) / period)

/-- `avgLoss == 0 ? 100 : 100 - 100/(1 + avgGain/avgLoss)`. -/
def rsiFromAvgs (avgGain avgLoss : Rat) : Rat :=
  if avgLoss = 0 then 100 else 100 - 100 / (1 + avgGain / avgLoss)

/-- `calculateRSI(prices, period)` from `rsi.js`: an all-`null` array when
`prices.length < period + 1`; otherwise `null` below index `period` and the
progressively smoothed Wilder RSI from index `period` on. -/
def calculateRSI (prices : List PricePoint) (period : Nat) : List (Option Rat) :=
  if prices.length < period + 1 then
    List.replicate prices.length none
  else
    (List.range prices.length).map fun i =>
      if i < period then none
      else
        let p := wilderAvgs prices period (i - period)
        some (rsiFromAvgs p.1 p.2)

/-- Result object of the RSI trigger checks. -/
structure RSICheck where
  isTriggered : Bool
  rsiValue : Option Rat
deriving DecidableEq, Repr

/-- `checkRSIOversoldTrigger(prices, currentIndex, threshold, period)` from
`rsi.js`: trigger when `rsiValues[currentIndex] <= threshold`. -/
def checkRSIOversoldTrigger (prices : List PricePoint) (currentIndex : Nat)
    (threshold : Rat) (period : Nat) : RSICheck :=
  if currentIndex < period ∨ prices.length ≤ currentIndex then
    ⟨false, none⟩
  else
    match (calculateRSI prices period).getD currentIndex none with
    | none => ⟨false, none⟩
    | some rsiValue => ⟨decide (rsiValue ≤ threshold), some rsiValue⟩

/-- `checkRSIOverboughtTrigger(prices, currentIndex, threshold, period)`:
trigger when `rsiValues[currentIndex] >= threshold`. -/
def checkRSIOverboughtTrigger (prices : List PricePoint) (currentIndex : Nat)
    (threshold : Rat) (period : Nat) : RSICheck :=
  if currentIndex < period ∨ prices.length ≤ currentIndex then
    ⟨false, none⟩
  else
    match (calculateRSI prices period).getD currentIndex none with
    | none => ⟨false, none⟩
    | some rsiValue => ⟨decide (threshold ≤ rsiValue), some rsiValue⟩

/-- `findMostRecentRSIOversoldTriggerDate`: backward scan down to `period`. -/
def findMostRecentRSIOversoldTriggerDate (prices : List PricePoint)
    (threshold : Rat) (period : Nat) : Option Nat :=
  (findBackFrom (fun i => (checkRSIOversoldTrigger prices i threshold period).isTriggered)
      period prices.length).bind (dateAt prices)

/-- `findMostRecentRSIOverboughtTriggerDate`. -/
def findMostRecentRSIOverboughtTriggerDate (prices : List PricePoint)
    (threshold : Rat) (period : Nat) : Option Nat :=
  (findBackFrom (fun i => (checkRSIOverboughtTrigger prices i threshold period).isTriggered)
      period prices.length).bind (dateAt prices)

/-- One element of the array returned by `calculateAllRSITriggers`. -/
structure RSIAlarm where
  alarmName : String
  ty : String
  threshold : Nat
  period : Nat
  previousTriggeredDate : Option Nat
deriving DecidableEq, Repr

/-- `calculateAllRSITriggers(prices, period)` from `rsi.js`:
`RSIOversold10/20/30` then `RSIOverbought70/80/90`. -/
def calculateAllRSITriggers (prices : List PricePoint) (period : Nat) : List RSIAlarm :=
  let oversoldThresholds : List Nat := [10, 20, 30]
  let overboughtThresholds : List Nat := [70, 80, 90]
  (oversoldThresholds.map fun t =>
    ⟨"RSIOversold" ++ toString t, "rsi-oversold", t, period,
     findMostRecentRSIOversoldTriggerDate prices (t : Rat) period⟩)
  ++ (overboughtThresholds.map fun t =>
    ⟨"RSIOverbought" ++ toString t, "rsi-overbought", t, period,
     findMostRecentRSIOverboughtTriggerDate prices (t : Rat) period⟩)

end RSI

namespace BollingerBands

/-- The `{middle, upper, lower}` band triple. -/
structure BB where
  middle : Rat
  upper : Rat
  lower : Rat
deriving DecidableEq, Repr

/-- `calculateBollingerBands(prices, currentIndex, period, stdDev)` from
`bollingerBands.js`.  `sq` models `Math.sqrt` (see the file header);
`currentIndex < period - 1` is `currentIndex + 1 < period` on naturals. -/
def calculateBollingerBands (sq : Rat → Rat) (prices : List PricePoint)
    (currentIndex period : Nat) (stdDev : Rat) : Option BB :=
  if currentIndex + 1 < period ∨ prices.length ≤ currentIndex then none
  else
    let relevantCloses := sliceCloses prices (currentIndex + 1 - period) period
    let sma := relevantCloses.sum / (period : Rat)
    let variance := (relevantCloses.map fun c => (c - sma) ^ 2).sum / (period : Rat)
    let standardDeviation := sq variance
    some ⟨sma, sma + stdDev * standardDeviation, sma - stdDev * standardDeviation⟩

/-- Result object of `checkBBLowerTrigger`. -/
structure BBLowerCheck where
  isTriggered : Bool
  bb : Option BB
  threshold : Option Rat
  priceClose : Option Rat
  priceLow : Option Rat
deriving DecidableEq, Repr

/-- Result object of `checkBBUpperTrigger`. -/
structure BBUpperCheck where
  isTriggered : Bool
  bb : Option BB
  threshold : Option Rat
  priceClose : Option Rat
  priceHigh : Option Rat
deriving DecidableEq, Repr

/-- `checkBBLowerTrigger(prices, currentIndex, period, stdDev,
distancePercent)` from `bollingerBands.js`: threshold
`lower + bandWidth·distancePercent/100`, trigger when `close <= threshold`
(only the close is compared; `priceLow` is reported but not used). -/
def checkBBLowerTrigger (sq : Rat → Rat) (prices : List PricePoint)
    (currentIndex period : Nat) (stdDev : Rat) (distancePercent : Nat) : BBLowerCheck :=
  match calculateBollingerBands sq prices currentIndex period stdDev with
  | none => ⟨false, none, none, none, none⟩
  | some bb =>
    let bandWidth := bb.upper - bb.lower
    let threshold := bb.lower + bandWidth * ((distancePercent : Rat) / 100)
    let priceClose := closeAt prices currentIndex
    ⟨decide (priceClose ≤ threshold), some bb, some threshold,
     some priceClose, some (lowAt prices currentIndex)⟩

/-- `checkBBUpperTrigger(prices, currentIndex, period, stdDev,
distancePercent)`: threshold `upper - bandWidth·distancePercent/100`,
trigger when `close >= threshold`. -/
def checkBBUpperTrigger (sq : Rat → Rat) (prices : List PricePoint)
    (currentIndex period : Nat) (stdDev : Rat) (distancePercent : Nat) : BBUpperCheck :=
  match calculateBollingerBands sq prices currentIndex period stdDev with
  | none => ⟨false, none, none, none, none⟩
  | some bb =>
    let bandWidth := bb.upper - bb.lower
    let threshold := bb.upper - bandWidth * ((distancePercent : Rat) / 100)
    let priceClose := closeAt prices currentIndex
    ⟨decide (threshold ≤ priceClose), some bb, some threshold,
     some priceClose, some (highAt prices currentIndex)⟩

/-- `findMostRecentBBLowerTriggerDate`: backward scan down to `period - 1`. -/
def findMostRecentBBLowerTriggerDate (sq : Rat → Rat) (prices : List PricePoint)
    (period : Nat) (stdDev : Rat) (distancePercent : Nat) : Option Nat :=
  (findBackFrom
      (fun i => (checkBBLowerTrigger sq prices i period stdDev distancePercent).isTriggered)
      (period - 1) prices.length).bind (dateAt prices)

/-- `findMostRecentBBUpperTriggerDate`. -/
def findMostRecentBBUpperTriggerDate (sq : Rat → Rat) (prices : List PricePoint)
    (period : Nat) (stdDev : Rat) (distancePercent : Nat) : Option Nat :=
  (findBackFrom
      (fun i => (checkBBUpperTrigger sq prices i period stdDev distancePercent).isTriggered)
      (period - 1) prices.length).bind (dateAt prices)

/-- One element of the array returned by `calculateAllBBTriggers`. -/
structure BBAlarm where
  alarmName : String
  ty : String
  period : Nat
  stdDev : Nat
  distancePercent : Nat
  previousTriggeredDate : Option Nat
deriving DecidableEq, Repr

/-- `calculateAllBBTriggers(prices, period, stdDev, distancePercents)` from
`bollingerBands.js`: `BBLower…` alarms for every distance, then `BBUpper…`. -/
def calculateAllBBTriggers (sq : Rat → Rat) (prices : List PricePoint)
    (period stdDev : Nat) (distancePercents : List Nat) : List BBAlarm :=
  (distancePercents.map fun d =>
    ⟨"BBLower" ++ toString period ++ "Period" ++ toString stdDev ++ "StdDev"
       ++ toString d ++ "Pct",
     "bb-lower", period, stdDev, d,
     findMostRecentBBLowerTriggerDate sq prices period (stdDev : Rat) d⟩)
  ++ (distancePercents.map fun d =>
    ⟨"BBUpper" ++ toString period ++ "Period" ++ toString stdDev ++ "StdDev"
       ++ toString d ++ "Pct",
     "bb-upper", period, stdDev, d,
     findMostRecentBBUpperTriggerDate sq prices period (stdDev : Rat) d⟩)

end BollingerBands

/-- The family-specific parameters carried by a catalogue entry (the JS
entries are heterogeneous objects; this sum collects the per-family
fields pushed by `calculateAlarmList`). -/
inductive AlarmParams where
  | nweekLow (weeks fluctuation : Nat)
  | nweekHigh (weeks fluctuation : Nat)
  | maCross (ma1Period ma2Period : Nat) (direction : MovingAverage.MADirection)
  | daily (ty : String) (threshold : Nat)
  | rsi (ty : String) (threshold period : Nat)
  | bb (ty : String) (period stdDev distancePercent : Nat)
deriving DecidableEq, Repr

/-- One entry of the alarm catalogue built by `calculateAlarmList`. -/
structure AlarmEntry where
  alarmName : String
  params : AlarmParams
  previousTriggeredDate : Option Nat
deriving DecidableEq, Repr

/-- `calculateAlarmList(prices, existingAlarmList, context)` from
`UpdateSingleStockIndicators/index.js`: the six detector families are
expanded over their fixed grids and concatenated, in source order.  The
received `existingAlarmList` is never read by the body.  `sq` models
`Math.sqrt` (used only by the Bollinger family). -/
def calculateAlarmList (sq : Rat → Rat) (prices : List PricePoint)
    (existingAlarmList : Option (List AlarmEntry)) : List AlarmEntry :=
  let _ := existingAlarmList
  let lowTriggers := NWeekLow.calculateAllNWeekLowTriggers prices [4, 8, 12, 24, 32, 52] [0, 10, 20]
  let highTriggers := NWeekHigh.calculateAllNWeekHighTriggers prices [4, 8, 12, 24, 32, 52] [0, 10, 20]
  let maTriggers := MovingAverage.calculateAllMACrossTriggers prices [10, 50, 100, 200]
    [.above, .below, .crossUp, .crossDown]
  let dailyChangeTriggers := DailyChange.calculateAllDailyChangeTriggers prices
  let rsiTriggers := RSI.calculateAllRSITriggers prices 14
  let bbTriggers := BollingerBands.calculateAllBBTriggers sq prices 20 2 [0, 5, 10]
  (lowTriggers.map fun t =>
    ⟨toString t.weeks ++ "WeekLow" ++ toString t.fluctuation ++ "Fluctuation",
     .nweekLow t.weeks t.fluctuation, t.previousTriggeredDate⟩)
  ++ (highTriggers.map fun t =>
    ⟨toString t.weeks ++ "WeekHigh" ++ toString t.fluctuation ++ "Fluctuation",
     .nweekHigh t.weeks t.fluctuation, t.previousTriggeredDate⟩)
  ++ (maTriggers.map fun t =>
    ⟨"MA" ++ toString t.ma1Period ++ t.direction.directionStr ++ "MA" ++ toString t.ma2Period,
     .maCross t.ma1Period t.ma2Period t.direction, t.previousTriggeredDate⟩)
  ++ (dailyChangeTriggers.map fun t =>
    ⟨t.alarmName, .daily t.ty t.threshold, t.previousTriggeredDate⟩)
  ++ (rsiTriggers.map fun t =>
    ⟨t.alarmName, .rsi t.ty t.threshold t.period, t.previousTriggeredDate⟩)
  ++ (bbTriggers.map fun t =>
    ⟨t.alarmName, .bb t.ty t.period t.stdDev t.distancePercent, t.previousTriggeredDate⟩)

/-- The indicator document built by `calculateTechnicalIndicators`. -/
structure Indicators where
  alarmList : List AlarmEntry
deriving DecidableEq, Repr

/-- `calculateTechnicalIndicators(prices, existingIndicators, context)`
from `UpdateSingleStockIndicators/index.js` (its local `today` is unused). -/
def calculateTechnicalIndicators (sq : Rat → Rat) (prices : List PricePoint)
    (existingIndicators : Option Indicators) : Indicators :=
  ⟨calculateAlarmList sq prices (existingIndicators.map (·.alarmList))⟩

namespace CheckUserAlerts

/-- A persisted catalogue entry as the notification checker sees it:
`previousTriggeredDate` is the stored ISO string, or null. -/
structure UserAlarm where
  alarmName : String
  previousTriggeredDate : Option String
deriving DecidableEq, Repr

/-- `formatDateUTC(date)` from `CheckUserAlerts/index.js`, string case:
`date.split('T')[0]`, i.e. the prefix of the string before its first `'T'`
character, modelled on the underlying character list. -/
def formatDateUTC (date : String) : String :=
  String.mk (date.data.takeWhile (fun c => c ≠ 'T'))

/-- `checkIfAllAlarmsTriggeredOnDate(alertOptions, alarmList, targetDate)`
from `CheckUserAlerts/index.js`: true iff every requested alarm name is
found in the list (first match), has a non-null, non-empty
`previousTriggeredDate`, and its UTC day equals `targetDate`.  The
emptiness test mirrors JS falsiness of `''`. -/
def checkIfAllAlarmsTriggeredOnDate (alertOptions : List String)
    (alarmList : List UserAlarm) (targetDate : String) : Bool :=
  alertOptions.all fun alarmName =>
    match alarmList.find? (fun a => a.alarmName == alarmName) with
    | none => false
    | some alarm =>
      match alarm.previousTriggeredDate with
      | none => false
      | some d => if d = "" then false else formatDateUTC d == targetDate

end CheckUserAlerts

section ScanLemmas

theorem backScan_eq_none_iff (p : Nat → Bool) (lo k : Nat) :
    backScan p lo k = none ↔ ∀ i, lo ≤ i → i ≤ lo + k → p i = false := by
  induction k with
  | zero =>
    simp only [backScan]
    cases hp : p lo with
    | true =>
      simp only [hp, if_true]
      constructor
      · intro h; cases h
      · intro h
        have := h lo le_rfl (by omega)
        rw [hp] at this
        cases this
    | false =>
      rw [if_neg (by simp [hp])]
      constructor
      · intro _ i h1 h2
        have hi : i = lo := by omega
        rw [hi, hp]
      · intro _
        rfl
  | succ k ih =>
    simp only [backScan]
    cases hp : p (lo + k + 1) with
    | true =>
      simp only [hp, if_true]
      constructor
      · intro h; cases h
      · intro h
        have := h (lo + k + 1) (by omega) (by omega)
        rw [hp] at this
        cases this
    | false =>
      rw [if_neg (by simp [hp])]
      rw [ih]
      constructor
      · intro h i h1 h2
        rcases Nat.lt_or_ge i (lo + k + 1) with hi | hi
        · exact h i h1 (by omega)
        · have hie : i = lo + k + 1 := by omega
          rw [hie, hp]
      · intro h i h1 h2
        exact h i h1 (by omega)

theorem backScan_eq_some_iff (p : Nat → Bool) (lo k j : Nat) :
    backScan p lo k = some j ↔
      (lo ≤ j ∧ j ≤ lo + k ∧ p j = true ∧ ∀ i, j < i → i ≤ lo + k → p i = false) := by
  induction k with
  | zero =>
    simp only [backScan]
    cases hp : p lo with
    | true =>
      simp only [hp, if_true, Option.some.injEq]
      constructor
      · intro h
        rw [← h]
        exact ⟨le_rfl, by omega, hp, fun i h1 h2 => by omega⟩
      · rintro ⟨h1, h2, _, _⟩
        omega
    | false =>
      rw [if_neg (by simp [hp])]
      constructor
      · intro h; cases h
      · rintro ⟨h1, h2, h3, _⟩
        have hj : j = lo := by omega
        rw [hj] at h3
        rw [h3] at hp
        cases hp
  | succ k ih =>
    simp only [backScan]
    cases hp : p (lo + k + 1) with
    | true =>
      simp only [hp, if_true, Option.some.injEq]
      constructor
      · intro h
        rw [← h]
        exact ⟨by omega, le_rfl, hp, fun i h1 h2 => by omega⟩
      · rintro ⟨h1, h2, h3, h4⟩
        rcases Nat.lt_or_ge j (lo + k + 1) with hj | hj
        · have := h4 (lo + k + 1) (by omega) le_rfl
          rw [hp] at this
          cases this
        · omega
    | false =>
      rw [if_neg (by simp [hp]), ih]
      constructor
      · rintro ⟨h1, h2, h3, h4⟩
        refine ⟨h1, by omega, h3, fun i hi1 hi2 => ?_⟩
        rcases Nat.lt_or_ge i (lo + k + 1) with hi | hi
        · exact h4 i hi1 (by omega)
        · have hie : i = lo + k + 1 := by omega
          rw [hie, hp]
      · rintro ⟨h1, h2, h3, h4⟩
        have hj : j ≤ lo + k := by
          rcases Nat.lt_or_ge j (lo + k + 1) with hj | hj
          · omega
          · have hje : j = lo + k + 1 := by omega
            rw [hje] at h3
            rw [h3] at hp
            cases hp
        exact ⟨h1, hj, h3, fun i hi1 hi2 => h4 i hi1 (by omega)⟩

theorem findBackFrom_eq_none_iff (p : Nat → Bool) (lo len : Nat) :
    findBackFrom p lo len = none ↔ ∀ i, lo ≤ i → i < len → p i = false := by
  unfold findBackFrom
  by_cases h : len ≤ lo
  · rw [if_pos h]
    constructor
    · intro _ i h1 h2; omega
    · intro _; rfl
  · rw [if_neg h, backScan_eq_none_iff]
    constructor
    · intro hall i h1 h2
      exact hall i h1 (by omega)
    · intro hall i h1 h2
      exact hall i h1 (by omega)

theorem findBackFrom_eq_some_iff (p : Nat → Bool) (lo len j : Nat) :
    findBackFrom p lo len = some j ↔
      (lo ≤ j ∧ j < len ∧ p j = true ∧ ∀ i, j < i → i < len → p i = false) := by
  unfold findBackFrom
  by_cases h : len ≤ lo
  · rw [if_pos h]
    constructor
    · intro hh; cases hh
    · rintro ⟨h1, h2, _, _⟩; omega
  · rw [if_neg h, backScan_eq_some_iff]
    constructor
    · rintro ⟨h1, h2, h3, h4⟩
      exact ⟨h1, by omega, h3, fun i hi1 hi2 => h4 i hi1 (by omega)⟩
    · rintro ⟨h1, h2, h3, h4⟩
      exact ⟨h1, by omega, h3, fun i hi1 hi2 => h4 i hi1 (by omega)⟩

theorem dateAt_eq_some (prices : List PricePoint) (j : Nat) (h : j < prices.length) :
    dateAt prices j = some ((prices.get ⟨j, h⟩).date) := by
  simp only [dateAt, List.get?_eq_get h, Option.map_some']

theorem findDate_eq_none_iff (prices : List PricePoint) (p : Nat → Bool) (lo : Nat) :
    (findBackFrom p lo prices.length).bind (dateAt prices) = none ↔
      ∀ i, lo ≤ i → i < prices.length → p i = false := by
  cases h : findBackFrom p lo prices.length with
  | none =>
    rw [findBackFrom_eq_none_iff] at h
    simpa using h
  | some j =>
    obtain ⟨h1, h2, h3, _⟩ := (findBackFrom_eq_some_iff p lo prices.length j).mp h
    rw [Option.some_bind, dateAt_eq_some prices j h2]
    constructor
    · intro hh; cases hh
    · intro hall
      have := hall j h1 h2
      rw [h3] at this
      cases this

theorem findDate_eq_of_greatest (prices : List PricePoint) (p : Nat → Bool) (lo k : Nat)
    (h1 : lo ≤ k) (h2 : k < prices.length) (h3 : p k = true)
    (h4 : ∀ i, k < i → i < prices.length → p i = false) :
    (findBackFrom p lo prices.length).bind (dateAt prices) = dateAt prices k := by
  have hs : findBackFrom p lo prices.length = some k :=
    (findBackFrom_eq_some_iff p lo prices.length k).mpr ⟨h1, h2, h3, h4⟩
  rw [hs, Option.some_bind]

end ScanLemmas

section MinMaxLemmas

theorem listMin_le {l : List Rat} {x : Rat} (hx : x ∈ l) : listMin l ≤ x := by
  induction l with
  | nil => cases hx
  | cons a t ih =>
    cases t with
    | nil =>
      rcases List.mem_cons.mp hx with rfl | hx
      · exact le_rfl
      · cases hx
    | cons b s =>
      rcases List.mem_cons.mp hx with rfl | hx
      · exact min_le_left _ _
      · exact le_trans (min_le_right _ _) (ih hx)

theorem le_listMax {l : List Rat} {x : Rat} (hx : x ∈ l) : x ≤ listMax l := by
  induction l with
  | nil => cases hx
  | cons a t ih =>
    cases t with
    | nil =>
      rcases List.mem_cons.mp hx with rfl | hx
      · exact le_rfl
      · cases hx
    | cons b s =>
      rcases List.mem_cons.mp hx with rfl | hx
      · exact le_max_left _ _
      · exact le_trans (ih hx) (le_max_right _ _)

theorem listMin_mem {l : List Rat} (h : l ≠ []) : listMin l ∈ l := by
  induction l with
  | nil => exact absurd rfl h
  | cons a t ih =>
    cases t with
    | nil => simp [listMin]
    | cons b s =>
      rcases min_cases a (listMin (b :: s)) with ⟨he, _⟩ | ⟨he, _⟩
      · simp [listMin, he]
      · have hm := ih (by simp)
        simp only [listMin, he]
        exact List.mem_cons_of_mem _ hm

theorem listMax_mem {l : List Rat} (h : l ≠ []) : listMax l ∈ l := by
  induction l with
  | nil => exact absurd rfl h
  | cons a t ih =>
    cases t with
    | nil => simp [listMax]
    | cons b s =>
      rcases max_cases a (listMax (b :: s)) with ⟨he, _⟩ | ⟨he, _⟩
      · simp [listMax, he]
      · have hm := ih (by simp)
        simp only [listMax, he]
        exact List.mem_cons_of_mem _ hm

theorem listMin_le_listMax {l : List Rat} (h : l ≠ []) : listMin l ≤ listMax l :=
  listMin_le (listMax_mem h)

theorem sliceCloses_length (prices : List PricePoint) (a n : Nat) :
    (sliceCloses prices a n).length = min n (prices.length - a) := by
  simp [sliceCloses]

end MinMaxLemmas

section IndexLemmas

theorem mem_of_getElemOpt {l : List Rat} {m : Nat} {x : Rat} (h : l[m]? = some x) : x ∈ l := by
  have hm : m < l.length := by
    by_contra hc
    simp [List.getElem?_eq_none (by omega : l.length ≤ m)] at h
  have hx : l[m] = x := by
    have hg := List.getElem?_eq_getElem hm
    rw [hg] at h
    exact Option.some.inj h
  rw [← hx]
  exact l.getElem_mem hm

theorem sliceCloses_getD (prices : List PricePoint) (a n m : Nat) (h1 : m < n)
    (h2 : a + m < prices.length) :
    (sliceCloses prices a n).getD m 0 = closeAt prices (a + m) := by
  simp [sliceCloses, closeAt, List.getD, List.getElem?_take, h1, List.getElem?_drop,
    List.get?_eq_getElem?, List.getElem?_eq_getElem h2]

theorem closeAt_mem_sliceCloses (prices : List PricePoint) (a n m : Nat) (h1 : m < n)
    (h2 : a + m < prices.length) : closeAt prices (a + m) ∈ sliceCloses prices a n := by
  apply mem_of_getElemOpt (m := m)
  simp [sliceCloses, closeAt, List.getElem?_take, h1, List.getElem?_drop,
    List.get?_eq_getElem?, List.getElem?_eq_getElem h2]

end IndexLemmas

/-- C2: for every price series and N-week-low parameterization `(weeks,
fluctuation)` with `days = weeks·5`, the most-recent-trigger search scans
indices from the last one down to `days` and returns the date of the
greatest index at which the trigger condition holds; it returns `null`
exactly when the condition holds at no index in that range.  In particular,
if the condition is true at `k` and nowhere above `k`, the result is
`series[k].date`. -/
theorem C2_most_recent_low_trigger_scan (prices : List PricePoint) (weeks fluctuation : Nat) :
    (NWeekLow.findMostRecentTriggerDate prices weeks fluctuation = none ↔
      ∀ i, weeks * 5 ≤ i → i < prices.length →
        (NWeekLow.checkNWeekLowTrigger prices i weeks fluctuation).isTriggered = false) ∧
    (∀ k, weeks * 5 ≤ k → k < prices.length →
      (NWeekLow.checkNWeekLowTrigger prices k weeks fluctuation).isTriggered = true →
      (∀ i, k < i → i < prices.length →
        (NWeekLow.checkNWeekLowTrigger prices i weeks fluctuation).isTriggered = false) →
      NWeekLow.findMostRecentTriggerDate prices weeks fluctuation = dateAt prices k) := by
  constructor
  · simpa only [NWeekLow.findMostRecentTriggerDate] using
      findDate_eq_none_iff prices
        (fun i => (NWeekLow.checkNWeekLowTrigger prices i weeks fluctuation).isTriggered)
        (weeks * 5)
  · intro k h1 h2 h3 h4
    simpa only [NWeekLow.findMostRecentTriggerDate] using
      findDate_eq_of_greatest prices
        (fun i => (NWeekLow.checkNWeekLowTrigger prices i weeks fluctuation).isTriggered)
        (weeks * 5) k h1 h2 h3 h4

/-- Concrete 6-point series for the C2 witness: strictly falling closes,
so the 1-week (5-trading-day) low with zero fluctuation triggers at the
last index. -/
def C2series : List PricePoint :=
  [⟨100, 0, 0, 0, 6, 0⟩, ⟨101, 0, 0, 0, 5, 0⟩, ⟨102, 0, 0, 0, 4, 0⟩,
   ⟨103, 0, 0, 0, 3, 0⟩, ⟨104, 0, 0, 0, 2, 0⟩, ⟨105, 0, 0, 0, 1, 0⟩]

theorem C2_most_recent_low_trigger_scan_witness :
    (NWeekLow.checkNWeekLowTrigger C2series 5 1 0).isTriggered = true ∧
    NWeekLow.findMostRecentTriggerDate C2series 1 0 = some 105 := by
  have htrig : (NWeekLow.checkNWeekLowTrigger C2series 5 1 0).isTriggered = true := by
    norm_num [NWeekLow.checkNWeekLowTrigger, C2series, sliceCloses, listMin, listMax, closeAt,
      min_def, max_def]
  have hlen : C2series.length = 6 := rfl
  have h := (C2_most_recent_low_trigger_scan C2series 1 0).2 5 (by omega)
    (by rw [hlen]; omega) htrig
    (fun i hi hl => absurd hl (by rw [hlen]; omega))
  refine ⟨htrig, ?_⟩
  rw [h]
  decide

/-- C8: for every series, index `i ≥ 1` (within bounds) and threshold, with
`pct = (close[i]-close[i-1])/close[i-1]·100`, the daily-loss detector
triggers iff `pct ≤ -threshold` and the daily-gain detector triggers iff
`pct ≥ threshold`; for `i < 1` or `i` past the end neither triggers. -/
theorem C8_daily_change_triggers (prices : List PricePoint) (i : Nat) (threshold : Rat) :
    (1 ≤ i → i < prices.length →
      ((DailyChange.checkDailyLossTrigger prices i threshold).isTriggered = true ↔
        (closeAt prices i - closeAt prices (i - 1)) / closeAt prices (i - 1) * 100
          ≤ -threshold) ∧
      ((DailyChange.checkDailyGainTrigger prices i threshold).isTriggered = true ↔
        threshold ≤
          (closeAt prices i - closeAt prices (i - 1)) / closeAt prices (i - 1) * 100)) ∧
    (i < 1 ∨ prices.length ≤ i →
      (DailyChange.checkDailyLossTrigger prices i threshold).isTriggered = false ∧
      (DailyChange.checkDailyGainTrigger prices i threshold).isTriggered = false) := by
  constructor
  · intro h1 h2
    have hc : ¬(i = 0 ∨ prices.length ≤ i) := by omega
    constructor
    · simp [DailyChange.checkDailyLossTrigger, hc]
    · simp [DailyChange.checkDailyGainTrigger, hc]
  · intro h
    have h' : i = 0 ∨ prices.length ≤ i := by omega
    constructor
    · simp [DailyChange.checkDailyLossTrigger, h']
    · simp [DailyChange.checkDailyGainTrigger, h']

/-- Concrete 2-point series for the C8 witness: a one-day fall from 100 to
90, a −10 % move. -/
def C8series : List PricePoint :=
  [⟨201, 0, 0, 0, 100, 0⟩, ⟨202, 0, 0, 0, 90, 0⟩]

theorem C8_daily_change_triggers_witness :
    (DailyChange.checkDailyLossTrigger C8series 1 5).isTriggered = true ∧
    (DailyChange.checkDailyGainTrigger C8series 1 5).isTriggered = false := by
  have h := (C8_daily_change_triggers C8series 1 5).1 le_rfl (by norm_num [C8series])
  constructor
  · rw [h.1]
    norm_num [C8series, closeAt]
  · rw [← Bool.not_eq_true, h.2]
    norm_num [C8series, closeAt]

/-- C4: for every series, in-bounds index `i`, `weeks` and `fluctuation`
with `days = weeks·5`: when `i < days` both N-week checks report
insufficient and not triggered; otherwise the window
`series[i-days .. i]` has exactly `days+1` points and ends at `close[i]`,
the checks report sufficient data, and — with `wLow`/`wHigh` the
minimum/maximum close of that window — the low detector triggers iff
`close[i] ≤ wLow + (wHigh−wLow)·fluctuation/100` and the high detector
triggers iff `close[i] ≥ wHigh − (wHigh−wLow)·fluctuation/100`. -/
theorem C4_nweek_check_window (prices : List PricePoint) (i weeks fluctuation : Nat)
    (hlen : i < prices.length) :
    (i < weeks * 5 →
      (NWeekLow.checkNWeekLowTrigger prices i weeks fluctuation).insufficient = true ∧
      (NWeekLow.checkNWeekLowTrigger prices i weeks fluctuation).isTriggered = false ∧
      (NWeekHigh.checkNWeekHighTrigger prices i weeks fluctuation).insufficient = true ∧
      (NWeekHigh.checkNWeekHighTrigger prices i weeks fluctuation).isTriggered = false) ∧
    (weeks * 5 ≤ i →
      (sliceCloses prices (i - weeks * 5) (weeks * 5 + 1)).length = weeks * 5 + 1 ∧
      (sliceCloses prices (i - weeks * 5) (weeks * 5 + 1)).getD (weeks * 5) 0
        = closeAt prices i ∧
      (NWeekLow.checkNWeekLowTrigger prices i weeks fluctuation).insufficient = false ∧
      (NWeekHigh.checkNWeekHighTrigger prices i weeks fluctuation).insufficient = false ∧
      ∃ wLow wHigh,
        wLow ∈ sliceCloses prices (i - weeks * 5) (weeks * 5 + 1) ∧
        (∀ x ∈ sliceCloses prices (i - weeks * 5) (weeks * 5 + 1), wLow ≤ x) ∧
        wHigh ∈ sliceCloses prices (i - weeks * 5) (weeks * 5 + 1) ∧
        (∀ x ∈ sliceCloses prices (i - weeks * 5) (weeks * 5 + 1), x ≤ wHigh) ∧
        ((NWeekLow.checkNWeekLowTrigger prices i weeks fluctuation).isTriggered = true ↔
          closeAt prices i ≤ wLow + (wHigh - wLow) * ((fluctuation : Rat) / 100)) ∧
        ((NWeekHigh.checkNWeekHighTrigger prices i weeks fluctuation).isTriggered = true ↔
          wHigh - (wHigh - wLow) * ((fluctuation : Rat) / 100) ≤ closeAt prices i)) := by
  constructor
  · intro hid
    have e1 : NWeekLow.checkNWeekLowTrigger prices i weeks fluctuation
        = ⟨false, none, none, none, true⟩ := by
      simp [NWeekLow.checkNWeekLowTrigger, hid]
    have e2 : NWeekHigh.checkNWeekHighTrigger prices i weeks fluctuation
        = ⟨false, none, none, none, true⟩ := by
      simp [NWeekHigh.checkNWeekHighTrigger, hid]
    rw [e1, e2]
    exact ⟨rfl, rfl, rfl, rfl⟩
  · intro hge
    have hc : ¬(i < weeks * 5 ∨ prices.length ≤ i) := by omega
    have hwl : (sliceCloses prices (i - weeks * 5) (weeks * 5 + 1)).length = weeks * 5 + 1 := by
      rw [sliceCloses_length]
      omega
    have hnotlt : ¬((sliceCloses prices (i - weeks * 5) (weeks * 5 + 1)).length
        < weeks * 5 + 1) := by
      rw [hwl]
      omega
    have hne : sliceCloses prices (i - weeks * 5) (weeks * 5 + 1) ≠ [] := by
      intro hh
      rw [hh] at hwl
      simp at hwl
    have hsum : i - weeks * 5 + weeks * 5 = i := by omega
    have hget : (sliceCloses prices (i - weeks * 5) (weeks * 5 + 1)).getD (weeks * 5) 0
        = closeAt prices i := by
      have := sliceCloses_getD prices (i - weeks * 5) (weeks * 5 + 1) (weeks * 5)
        (by omega) (by omega)
      rwa [hsum] at this
    have e1 : NWeekLow.checkNWeekLowTrigger prices i weeks fluctuation
        = ⟨decide (closeAt prices i ≤
              listMin (sliceCloses prices (i - weeks * 5) (weeks * 5 + 1))
                + (listMax (sliceCloses prices (i - weeks * 5) (weeks * 5 + 1))
                    - listMin (sliceCloses prices (i - weeks * 5) (weeks * 5 + 1)))
                  * ((fluctuation : Rat) / 100)),
           some (listMin (sliceCloses prices (i - weeks * 5) (weeks * 5 + 1))
                + (listMax (sliceCloses prices (i - weeks * 5) (weeks * 5 + 1))
                    - listMin (sliceCloses prices (i - weeks * 5) (weeks * 5 + 1)))
                  * ((fluctuation : Rat) / 100)),
           some (listMin (sliceCloses prices (i - weeks * 5) (weeks * 5 + 1))),
           some (listMax (sliceCloses prices (i - weeks * 5) (weeks * 5 + 1))), false⟩ := by
      simp [NWeekLow.checkNWeekLowTrigger, hc, hnotlt]
    have e2 : NWeekHigh.checkNWeekHighTrigger prices i weeks fluctuation
        = ⟨decide (listMax (sliceCloses prices (i - weeks * 5) (weeks * 5 + 1))
                - (listMax (sliceCloses prices (i - weeks * 5) (weeks * 5 + 1))
                    - listMin (sliceCloses prices (i - weeks * 5) (weeks * 5 + 1)))
                  * ((fluctuation : Rat) / 100) ≤ closeAt prices i),
           some (listMax (sliceCloses prices (i - weeks * 5) (weeks * 5 + 1))
                - (listMax (sliceCloses prices (i - weeks * 5) (weeks * 5 + 1))
                    - listMin (sliceCloses prices (i - weeks * 5) (weeks * 5 + 1)))
                  * ((fluctuation : Rat) / 100)),
           some (listMin (sliceCloses prices (i - weeks * 5) (weeks * 5 + 1))),
           some (listMax (sliceCloses prices (i - weeks * 5) (weeks * 5 + 1))), false⟩ := by
      simp [NWeekHigh.checkNWeekHighTrigger, hc, hnotlt]
    refine ⟨hwl, hget, by rw [e1], by rw [e2],
      listMin (sliceCloses prices (i - weeks * 5) (weeks * 5 + 1)),
      listMax (sliceCloses prices (i - weeks * 5) (weeks * 5 + 1)),
      listMin_mem hne, fun x hx => listMin_le hx,
      listMax_mem hne, fun x hx => le_listMax hx, ?_, ?_⟩
    · rw [e1]
      simp
    · rw [e2]
      simp

theorem C4_nweek_check_window_witness :
    (NWeekLow.checkNWeekLowTrigger C2series 2 1 0).insufficient = true ∧
    (NWeekLow.checkNWeekLowTrigger C2series 5 1 0).insufficient = false ∧
    (NWeekHigh.checkNWeekHighTrigger C2series 5 1 0).insufficient = false := by
  have hA := (C4_nweek_check_window C2series 2 1 0 (by norm_num [C2series])).1 (by omega)
  have hB := (C4_nweek_check_window C2series 5 1 0 (by norm_num [C2series])).2 (by omega)
  exact ⟨hA.1, hB.2.2.1, hB.2.2.2.1⟩

/-- C9: N-week low/high triggering is monotone in the fluctuation
parameter: a trigger at fluctuation `f` is a trigger at every `f' ≥ f`;
consequently the most-recent-trigger index for `f'` is at least the one for
`f`, and (for a series whose dates increase with the index) the
most-recent-trigger date for `f'` never strictly precedes the one for `f`. -/
theorem C9_fluctuation_monotone (prices : List PricePoint) (weeks f f' : Nat) (hff : f ≤ f') :
    (∀ i, (NWeekLow.checkNWeekLowTrigger prices i weeks f).isTriggered = true →
      (NWeekLow.checkNWeekLowTrigger prices i weeks f').isTriggered = true) ∧
    (∀ i, (NWeekHigh.checkNWeekHighTrigger prices i weeks f).isTriggered = true →
      (NWeekHigh.checkNWeekHighTrigger prices i weeks f').isTriggered = true) ∧
    (∀ k, findBackFrom (fun i => (NWeekLow.checkNWeekLowTrigger prices i weeks f).isTriggered)
        (weeks * 5) prices.length = some k →
      ∃ k', k ≤ k' ∧
        findBackFrom (fun i => (NWeekLow.checkNWeekLowTrigger prices i weeks f').isTriggered)
          (weeks * 5) prices.length = some k') ∧
    ((∀ a b, a ≤ b → b < prices.length →
        ∀ da db, dateAt prices a = some da → dateAt prices b = some db → da ≤ db) →
      ∀ d, NWeekLow.findMostRecentTriggerDate prices weeks f = some d →
        ∃ d', d ≤ d' ∧ NWeekLow.findMostRecentTriggerDate prices weeks f' = some d') := by
  have hlowmono : ∀ i, (NWeekLow.checkNWeekLowTrigger prices i weeks f).isTriggered = true →
      (NWeekLow.checkNWeekLowTrigger prices i weeks f').isTriggered = true := by
    intro i htrig
    by_cases hcond : i < weeks * 5 ∨ prices.length ≤ i
    · rw [show NWeekLow.checkNWeekLowTrigger prices i weeks f = ⟨false, none, none, none, true⟩
        from by simp [NWeekLow.checkNWeekLowTrigger, hcond]] at htrig
      cases htrig
    · have hwl : (sliceCloses prices (i - weeks * 5) (weeks * 5 + 1)).length
          = weeks * 5 + 1 := by
        rw [sliceCloses_length]
        omega
      have hnotlt : ¬((sliceCloses prices (i - weeks * 5) (weeks * 5 + 1)).length
          < weeks * 5 + 1) := by
        rw [hwl]
        omega
      have hne : sliceCloses prices (i - weeks * 5) (weeks * 5 + 1) ≠ [] := by
        intro hh
        rw [hh] at hwl
        simp at hwl
      have hrange : 0 ≤ listMax (sliceCloses prices (i - weeks * 5) (weeks * 5 + 1))
          - listMin (sliceCloses prices (i - weeks * 5) (weeks * 5 + 1)) :=
        sub_nonneg.mpr (listMin_le_listMax hne)
      simp only [NWeekLow.checkNWeekLowTrigger, hcond, if_false, hnotlt,
        decide_eq_true_eq] at htrig ⊢
      refine le_trans htrig ?_
      gcongr
  have hidx : ∀ k,
      findBackFrom (fun i => (NWeekLow.checkNWeekLowTrigger prices i weeks f).isTriggered)
        (weeks * 5) prices.length = some k →
      ∃ k', k ≤ k' ∧
        findBackFrom (fun i => (NWeekLow.checkNWeekLowTrigger prices i weeks f').isTriggered)
          (weeks * 5) prices.length = some k' := by
    intro k hk
    obtain ⟨h1, h2, h3, _⟩ := (findBackFrom_eq_some_iff _ _ _ _).mp hk
    have hk' : (NWeekLow.checkNWeekLowTrigger prices k weeks f').isTriggered = true :=
      hlowmono k h3
    cases hfb : findBackFrom
        (fun i => (NWeekLow.checkNWeekLowTrigger prices i weeks f').isTriggered)
        (weeks * 5) prices.length with
    | none =>
      have := (findBackFrom_eq_none_iff _ _ _).mp hfb k h1 h2
      rw [hk'] at this
      cases this
    | some k' =>
      obtain ⟨_, _, _, h4'⟩ := (findBackFrom_eq_some_iff _ _ _ _).mp hfb
      refine ⟨k', ?_, rfl⟩
      by_contra hlt
      have := h4' k (by omega) h2
      rw [hk'] at this
      cases this
  refine ⟨hlowmono, ?_, hidx, ?_⟩
  · intro i htrig
    by_cases hcond : i < weeks * 5 ∨ prices.length ≤ i
    · rw [show NWeekHigh.checkNWeekHighTrigger prices i weeks f = ⟨false, none, none, none, true⟩
        from by simp [NWeekHigh.checkNWeekHighTrigger, hcond]] at htrig
      cases htrig
    · have hwl : (sliceCloses prices (i - weeks * 5) (weeks * 5 + 1)).length
          = weeks * 5 + 1 := by
        rw [sliceCloses_length]
        omega
      have hnotlt : ¬((sliceCloses prices (i - weeks * 5) (weeks * 5 + 1)).length
          < weeks * 5 + 1) := by
        rw [hwl]
        omega
      have hne : sliceCloses prices (i - weeks * 5) (weeks * 5 + 1) ≠ [] := by
        intro hh
        rw [hh] at hwl
        simp at hwl
      have hrange : 0 ≤ listMax (sliceCloses prices (i - weeks * 5) (weeks * 5 + 1))
          - listMin (sliceCloses prices (i - weeks * 5) (weeks * 5 + 1)) :=
        sub_nonneg.mpr (listMin_le_listMax hne)
      simp only [NWeekHigh.checkNWeekHighTrigger, hcond, if_false, hnotlt,
        decide_eq_true_eq] at htrig ⊢
      refine le_trans ?_ htrig
      gcongr
  · intro hdates d hd
    simp only [NWeekLow.findMostRecentTriggerDate] at hd
    cases hfb : findBackFrom
        (fun i => (NWeekLow.checkNWeekLowTrigger prices i weeks f).isTriggered)
        (weeks * 5) prices.length with
    | none =>
      rw [hfb] at hd
      cases hd
    | some k =>
      rw [hfb, Option.some_bind] at hd
      obtain ⟨k', hkk', hfb'⟩ := hidx k hfb
      obtain ⟨_, hk'len, _, _⟩ := (findBackFrom_eq_some_iff _ _ _ _).mp hfb'
      have hd' : dateAt prices k' = some ((prices.get ⟨k', hk'len⟩).date) :=
        dateAt_eq_some prices k' hk'len
      refine ⟨(prices.get ⟨k', hk'len⟩).date, hdates k k' hkk' hk'len d _ hd hd', ?_⟩
      simp only [NWeekLow.findMostRecentTriggerDate]
      rw [hfb', Option.some_bind, hd']

theorem C9_fluctuation_monotone_witness :
    (NWeekLow.checkNWeekLowTrigger C2series 5 1 0).isTriggered = true ∧
    (NWeekLow.checkNWeekLowTrigger C2series 5 1 10).isTriggered = true := by
  have htrig : (NWeekLow.checkNWeekLowTrigger C2series 5 1 0).isTriggered = true := by
    norm_num [NWeekLow.checkNWeekLowTrigger, C2series, sliceCloses, listMin, listMax, closeAt,
      min_def, max_def]
  exact ⟨htrig, (C9_fluctuation_monotone C2series 1 0 10 (by omega)).1 5 htrig⟩

/-- C7: for every series and period pair `p1 < p2` whose SMAs are defined
at `i` and `i-1` (i.e. `p2 ≤ i`, within bounds), the code's SMAs are the
arithmetic means of the closes over the `p` points ending at the given
index, and the cross-up condition holds iff
`sma(p1,i-1) ≤ sma(p2,i-1) ∧ sma(p1,i) > sma(p2,i)`; cross-down is the
mirror. -/
theorem C7_ma_crossover (prices : List PricePoint) (i p1 p2 : Nat)
    (hp1 : 1 ≤ p1) (hp12 : p1 < p2) (hi : p2 ≤ i) (hlen : i < prices.length) :
    ∃ a b a' b',
      MovingAverage.calculateMA prices i p1 = some a ∧
      MovingAverage.calculateMA prices i p2 = some b ∧
      MovingAverage.calculateMA prices (i - 1) p1 = some a' ∧
      MovingAverage.calculateMA prices (i - 1) p2 = some b' ∧
      a = (sliceCloses prices (i + 1 - p1) p1).sum / (p1 : Rat) ∧
      (sliceCloses prices (i + 1 - p1) p1).length = p1 ∧
      (sliceCloses prices (i + 1 - p1) p1).getD (p1 - 1) 0 = closeAt prices i ∧
      b = (sliceCloses prices (i + 1 - p2) p2).sum / (p2 : Rat) ∧
      (sliceCloses prices (i + 1 - p2) p2).length = p2 ∧
      (sliceCloses prices (i + 1 - p2) p2).getD (p2 - 1) 0 = closeAt prices i ∧
      ((MovingAverage.checkMACrossMA prices i p1 p2).crossed = true ∧
        (MovingAverage.checkMACrossMA prices i p1 p2).direction
          = some MovingAverage.Cross.golden ↔ a' ≤ b' ∧ b < a) ∧
      ((MovingAverage.checkMACrossMA prices i p1 p2).crossed = true ∧
        (MovingAverage.checkMACrossMA prices i p1 p2).direction
          = some MovingAverage.Cross.death ↔ b' ≤ a' ∧ a < b) := by
  have ha : MovingAverage.calculateMA prices i p1
      = some ((sliceCloses prices (i + 1 - p1) p1).sum / (p1 : Rat)) := by
    rw [MovingAverage.calculateMA, if_neg (by omega)]
  have hb : MovingAverage.calculateMA prices i p2
      = some ((sliceCloses prices (i + 1 - p2) p2).sum / (p2 : Rat)) := by
    rw [MovingAverage.calculateMA, if_neg (by omega)]
  have ha' : MovingAverage.calculateMA prices (i - 1) p1
      = some ((sliceCloses prices (i - 1 + 1 - p1) p1).sum / (p1 : Rat)) := by
    rw [MovingAverage.calculateMA, if_neg (by omega)]
  have hb' : MovingAverage.calculateMA prices (i - 1) p2
      = some ((sliceCloses prices (i - 1 + 1 - p2) p2).sum / (p2 : Rat)) := by
    rw [MovingAverage.calculateMA, if_neg (by omega)]
  have hg : ¬(i < p2 ∨ i < 1) := by omega
  have hcheck : MovingAverage.checkMACrossMA prices i p1 p2
      = ⟨(decide ((sliceCloses prices (i - 1 + 1 - p1) p1).sum / (p1 : Rat)
            ≤ (sliceCloses prices (i - 1 + 1 - p2) p2).sum / (p2 : Rat))
          && decide ((sliceCloses prices (i + 1 - p2) p2).sum / (p2 : Rat)
            < (sliceCloses prices (i + 1 - p1) p1).sum / (p1 : Rat)))
        || (decide ((sliceCloses prices (i - 1 + 1 - p2) p2).sum / (p2 : Rat)
            ≤ (sliceCloses prices (i - 1 + 1 - p1) p1).sum / (p1 : Rat))
          && decide ((sliceCloses prices (i + 1 - p1) p1).sum / (p1 : Rat)
            < (sliceCloses prices (i + 1 - p2) p2).sum / (p2 : Rat))),
        if (decide ((sliceCloses prices (i - 1 + 1 - p1) p1).sum / (p1 : Rat)
            ≤ (sliceCloses prices (i - 1 + 1 - p2) p2).sum / (p2 : Rat))
          && decide ((sliceCloses prices (i + 1 - p2) p2).sum / (p2 : Rat)
            < (sliceCloses prices (i + 1 - p1) p1).sum / (p1 : Rat))) = true
          then some .golden
          else if (decide ((sliceCloses prices (i - 1 + 1 - p2) p2).sum / (p2 : Rat)
            ≤ (sliceCloses prices (i - 1 + 1 - p1) p1).sum / (p1 : Rat))
          && decide ((sliceCloses prices (i + 1 - p1) p1).sum / (p1 : Rat)
            < (sliceCloses prices (i + 1 - p2) p2).sum / (p2 : Rat))) = true
          then some .death else none,
        some ((sliceCloses prices (i + 1 - p1) p1).sum / (p1 : Rat)),
        some ((sliceCloses prices (i + 1 - p2) p2).sum / (p2 : Rat)),
        some ((sliceCloses prices (i - 1 + 1 - p1) p1).sum / (p1 : Rat)),
        some ((sliceCloses prices (i - 1 + 1 - p2) p2).sum / (p2 : Rat))⟩ := by
    rw [MovingAverage.checkMACrossMA, if_neg hg]
    rw [ha, hb, ha', hb']
  refine ⟨_, _, _, _, ha, hb, ha', hb', rfl,
    by rw [sliceCloses_length]; omega,
    ?_, rfl,
    by rw [sliceCloses_length]; omega,
    ?_, ?_, ?_⟩
  · have hgm := sliceCloses_getD prices (i + 1 - p1) p1 (p1 - 1) (by omega) (by omega)
    have hix : i + 1 - p1 + (p1 - 1) = i := by omega
    rwa [hix] at hgm
  · have hgm := sliceCloses_getD prices (i + 1 - p2) p2 (p2 - 1) (by omega) (by omega)
    have hix : i + 1 - p2 + (p2 - 1) = i := by omega
    rwa [hix] at hgm
  · rw [hcheck]
    simp only [Bool.or_eq_true, Bool.and_eq_true, decide_eq_true_eq]
    set pa := (sliceCloses prices (i + 1 - p1) p1).sum / (p1 : Rat)
    set pb := (sliceCloses prices (i + 1 - p2) p2).sum / (p2 : Rat)
    set qa := (sliceCloses prices (i - 1 + 1 - p1) p1).sum / (p1 : Rat)
    set qb := (sliceCloses prices (i - 1 + 1 - p2) p2).sum / (p2 : Rat)
    constructor
    · rintro ⟨hcr, hdir⟩
      by_cases hG : qa ≤ qb ∧ pb < pa
      · exact hG
      · rw [if_neg hG] at hdir
        by_cases hD : qb ≤ qa ∧ pa < pb
        · rw [if_pos hD] at hdir
          cases hdir
        · rw [if_neg hD] at hdir
          cases hdir
    · intro hG
      rw [if_pos hG]
      exact ⟨Or.inl hG, rfl⟩
  · rw [hcheck]
    simp only [Bool.or_eq_true, Bool.and_eq_true, decide_eq_true_eq]
    set pa := (sliceCloses prices (i + 1 - p1) p1).sum / (p1 : Rat)
    set pb := (sliceCloses prices (i + 1 - p2) p2).sum / (p2 : Rat)
    set qa := (sliceCloses prices (i - 1 + 1 - p1) p1).sum / (p1 : Rat)
    set qb := (sliceCloses prices (i - 1 + 1 - p2) p2).sum / (p2 : Rat)
    constructor
    · rintro ⟨hcr, hdir⟩
      by_cases hG : qa ≤ qb ∧ pb < pa
      · rw [if_pos hG] at hdir
        cases hdir
      · rw [if_neg hG] at hdir
        by_cases hD : qb ≤ qa ∧ pa < pb
        · exact hD
        · rw [if_neg hD] at hdir
          cases hdir
    · intro hD
      have hGf : ¬(qa ≤ qb ∧ pb < pa) := by
        rintro ⟨_, hlt⟩
        exact absurd hD.2 (not_lt.mpr (le_of_lt hlt))
      rw [if_neg hGf, if_pos hD]
      exact ⟨Or.inr hD, rfl⟩

/-- Concrete 3-point series for the C7 witness: flat then a jump, so the
1-period SMA crosses up through the 2-period SMA at the last index. -/
def C7series : List PricePoint :=
  [⟨300, 0, 0, 0, 1, 0⟩, ⟨301, 0, 0, 0, 1, 0⟩, ⟨302, 0, 0, 0, 5, 0⟩]

theorem C7_ma_crossover_witness :
    (MovingAverage.checkMACrossMA C7series 2 1 2).crossed = true ∧
    (MovingAverage.checkMACrossMA C7series 2 1 2).direction
      = some MovingAverage.Cross.golden := by
  obtain ⟨a, b, a', b', ha, hb, ha', hb', _, _, _, _, _, _, hiff, _⟩ :=
    C7_ma_crossover C7series 2 1 2 (by omega) (by omega) (by omega) (by norm_num [C7series])
  have hva : MovingAverage.calculateMA C7series 2 1 = some 5 := by
    norm_num [MovingAverage.calculateMA, C7series, sliceCloses]
  have hvb : MovingAverage.calculateMA C7series 2 2 = some 3 := by
    norm_num [MovingAverage.calculateMA, C7series, sliceCloses]
  have hva' : MovingAverage.calculateMA C7series 1 1 = some 1 := by
    norm_num [MovingAverage.calculateMA, C7series, sliceCloses]
  have hvb' : MovingAverage.calculateMA C7series 1 2 = some 1 := by
    norm_num [MovingAverage.calculateMA, C7series, sliceCloses]
  have hea : a = 5 := Option.some.inj (ha.symm.trans hva)
  have heb : b = 3 := Option.some.inj (hb.symm.trans hvb)
  have hea' : a' = 1 := Option.some.inj (ha'.symm.trans hva')
  have heb' : b' = 1 := Option.some.inj (hb'.symm.trans hvb')
  exact hiff.mpr ⟨by rw [hea', heb'], by rw [hea, heb]; norm_num⟩

/-- C3: the composite matcher returns true iff every requested alarm name
is present in the catalogue (first match by name) with a non-null
`previousTriggeredDate` whose UTC `YYYY-MM-DD` day equals the target date;
a missing name or a null date forces false.  (The target date is nonempty:
the caller always passes either today's date or a regex-validated
`YYYY-MM-DD` string.) -/
theorem C3_composite_matcher (alertOptions : List String)
    (alarmList : List CheckUserAlerts.UserAlarm) (targetDate : String)
    (htd : targetDate ≠ "") :
    CheckUserAlerts.checkIfAllAlarmsTriggeredOnDate alertOptions alarmList targetDate = true ↔
      ∀ name ∈ alertOptions, ∃ alarm,
        alarmList.find? (fun a => a.alarmName == name) = some alarm ∧
        ∃ d, alarm.previousTriggeredDate = some d ∧
          CheckUserAlerts.formatDateUTC d = targetDate := by
  rw [CheckUserAlerts.checkIfAllAlarmsTriggeredOnDate, List.all_eq_true]
  refine forall_congr' fun name => imp_congr_right fun _ => ?_
  cases hfind : alarmList.find? (fun a => a.alarmName == name) with
  | none => simp [hfind]
  | some alarm =>
    cases hprev : alarm.previousTriggeredDate with
    | none => simp [hfind, hprev]
    | some d =>
      by_cases hd : d = ""
      · subst hd
        have hfmt : CheckUserAlerts.formatDateUTC "" = "" := by decide
        simp [hfind, hprev, hfmt, Ne.symm htd]
      · simp [hfind, hprev, hd, beq_iff_eq]

/-- Concrete catalogue for the C3 witness: alarm `A` fired on day `D =
2025-01-02`, alarm `B` fired on `D-1`. -/
def C3catalogue : List CheckUserAlerts.UserAlarm :=
  [⟨"A", some "2025-01-02"⟩, ⟨"B", some "2025-01-01"⟩]

theorem C3_composite_matcher_witness :
    ("2025-01-02" : String) ≠ "" ∧
    CheckUserAlerts.checkIfAllAlarmsTriggeredOnDate ["A"] C3catalogue "2025-01-02" = true ∧
    CheckUserAlerts.checkIfAllAlarmsTriggeredOnDate ["A", "B"] C3catalogue "2025-01-02"
      = false := by
  refine ⟨by decide, ?_, by decide⟩
  apply (C3_composite_matcher ["A"] C3catalogue "2025-01-02" (by decide)).mpr
  intro name hname
  have hn : name = "A" := by simpa using hname
  subst hn
  exact ⟨⟨"A", some "2025-01-02"⟩, by decide, "2025-01-02", rfl, by decide⟩

section RSILemmas

theorem calculateRSI_getD_short (prices : List PricePoint) (period i : Nat)
    (h : prices.length < period + 1) :
    (RSI.calculateRSI prices period).getD i none = none := by
  rw [RSI.calculateRSI, if_pos h, List.getD_eq_getElem?_getD, List.getElem?_replicate]
  split
  · rfl
  · rfl

theorem calculateRSI_getD_early (prices : List PricePoint) (period i : Nat)
    (hlen : period + 1 ≤ prices.length) (hi : i < period) :
    (RSI.calculateRSI prices period).getD i none = none := by
  rw [RSI.calculateRSI, if_neg (by omega), List.getD_eq_getElem?_getD]
  have hilen : i < prices.length := by omega
  rw [List.getElem?_map, List.getElem?_range hilen]
  simp [hi]

theorem calculateRSI_getD_main (prices : List PricePoint) (period i : Nat)
    (hlen : period + 1 ≤ prices.length) (hi : period ≤ i) (hilen : i < prices.length) :
    (RSI.calculateRSI prices period).getD i none
      = some (RSI.rsiFromAvgs (RSI.wilderAvgs prices period (i - period)).1
          (RSI.wilderAvgs prices period (i - period)).2) := by
  rw [RSI.calculateRSI, if_neg (by omega), List.getD_eq_getElem?_getD]
  rw [List.getElem?_map, List.getElem?_range hilen]
  simp [Nat.not_lt.mpr hi]

theorem wilderAvgs_snd_eq_zero (prices : List PricePoint) (period : Nat)
    (hrise : ∀ j, j + 1 < prices.length → closeAt prices j < closeAt prices (j + 1)) :
    ∀ j, period + j < prices.length → (RSI.wilderAvgs prices period j).2 = 0 := by
  intro j
  induction j with
  | zero =>
    intro hlt
    have hseed : RSI.seedLosses prices period = 0 := by
      apply List.sum_eq_zero
      intro x hx
      obtain ⟨m, hm, hfx⟩ := List.mem_map.mp hx
      have hm' : m < period := List.mem_range.mp hm
      have hrm : closeAt prices m < closeAt prices (m + 1) := hrise m (by omega)
      rw [← hfx]
      simp only []
      rw [if_pos (by linarith)]
    show RSI.seedLosses prices period / period = 0
    rw [hseed, zero_div]
  | succ j ih =>
    intro hlt
    have hprev : (RSI.wilderAvgs prices period j).2 = 0 := ih (by omega)
    have hrj : closeAt prices (period + j) < closeAt prices (period + j + 1) :=
      hrise (period + j) (by omega)
    show ((RSI.wilderAvgs prices period j).2 * ((period : Rat) - 1)
        + (if closeAt prices (period + j + 1) - closeAt prices (period + j) < 0
            then |closeAt prices (period + j + 1) - closeAt prices (period + j)| else 0))
          / period = 0
    rw [hprev, if_neg (by linarith), zero_mul, add_zero, zero_div]

end RSILemmas

/-- C5: the RSI computation yields `null` at every index of a series
shorter than `period+1` points and at indices below `period`; at defined
indices it is the progressively smoothed Wilder value (seeded at index
`period`, then `avg = (avg·(period-1)+current)/period`); whenever the
smoothed average loss is 0 the value is exactly 100, so a series with
uniformly rising closes yields RSI = 100 at every defined index. -/
theorem C5_rsi_wilder (prices : List PricePoint) (period : Nat) :
    (RSI.calculateRSI prices period).length = prices.length ∧
    (∀ i, i < prices.length → (i < period ∨ prices.length < period + 1) →
      (RSI.calculateRSI prices period).getD i none = none) ∧
    (∀ i, period ≤ i → i < prices.length → period + 1 ≤ prices.length →
      (RSI.calculateRSI prices period).getD i none
        = some (RSI.rsiFromAvgs (RSI.wilderAvgs prices period (i - period)).1
            (RSI.wilderAvgs prices period (i - period)).2)) ∧
    (∀ i, period ≤ i → i < prices.length → period + 1 ≤ prices.length →
      (RSI.wilderAvgs prices period (i - period)).2 = 0 →
      (RSI.calculateRSI prices period).getD i none = some 100) ∧
    ((∀ j, j + 1 < prices.length → closeAt prices j < closeAt prices (j + 1)) →
      ∀ i, period ≤ i → i < prices.length →
        (RSI.calculateRSI prices period).getD i none = some 100) := by
  refine ⟨?_, ?_, ?_, ?_, ?_⟩
  · rw [RSI.calculateRSI]
    split
    · rw [List.length_replicate]
    · rw [List.length_map, List.length_range]
  · intro i hilen hcase
    rcases Nat.lt_or_ge prices.length (period + 1) with hshort | hlong
    · exact calculateRSI_getD_short prices period i hshort
    · rcases hcase with hip | hshort
      · exact calculateRSI_getD_early prices period i hlong hip
      · omega
  · intro i hi hilen hlen
    exact calculateRSI_getD_main prices period i hlen hi hilen
  · intro i hi hilen hlen hzero
    rw [calculateRSI_getD_main prices period i hlen hi hilen, hzero]
    rw [RSI.rsiFromAvgs, if_pos rfl]
  · intro hrise i hi hilen
    have hlen : period + 1 ≤ prices.length := by omega
    have hzero : (RSI.wilderAvgs prices period (i - period)).2 = 0 :=
      wilderAvgs_snd_eq_zero prices period hrise (i - period) (by omega)
    rw [calculateRSI_getD_main prices period i hlen hi hilen, hzero]
    rw [RSI.rsiFromAvgs, if_pos rfl]

/-- Concrete 16-point series with uniformly rising closes `1..16`, for the
C5 witness (RSI period 14 is defined at indices 14 and 15). -/
def C5series : List PricePoint :=
  [⟨400, 0, 0, 0, 1, 0⟩, ⟨401, 0, 0, 0, 2, 0⟩, ⟨402, 0, 0, 0, 3, 0⟩, ⟨403, 0, 0, 0, 4, 0⟩,
   ⟨404, 0, 0, 0, 5, 0⟩, ⟨405, 0, 0, 0, 6, 0⟩, ⟨406, 0, 0, 0, 7, 0⟩, ⟨407, 0, 0, 0, 8, 0⟩,
   ⟨408, 0, 0, 0, 9, 0⟩, ⟨409, 0, 0, 0, 10, 0⟩, ⟨410, 0, 0, 0, 11, 0⟩, ⟨411, 0, 0, 0, 12, 0⟩,
   ⟨412, 0, 0, 0, 13, 0⟩, ⟨413, 0, 0, 0, 14, 0⟩, ⟨414, 0, 0, 0, 15, 0⟩, ⟨415, 0, 0, 0, 16, 0⟩]

theorem C5_rsi_wilder_witness :
    (RSI.calculateRSI C5series 14).getD 15 none = some 100 := by
  have hrise : ∀ j, j + 1 < C5series.length →
      closeAt C5series j < closeAt C5series (j + 1) := by
    intro j hj
    have hj' : j < 15 := by
      have : C5series.length = 16 := rfl
      omega
    interval_cases j <;> norm_num [closeAt, C5series]
  exact (C5_rsi_wilder C5series 14).2.2.2.2 hrise 15 (by omega) (by norm_num [C5series])

/-- C6: one builder run is a deterministic function of the price series
alone: the previously persisted catalogue handed in as
`existingAlarmList` / `existingIndicators` is ignored, so two runs on the
same series produce identical catalogues whatever existing state is passed
(and for any interpretation of `Math.sqrt`). -/
theorem C6_builder_ignores_existing (sq : Rat → Rat) (prices : List PricePoint)
    (ex1 ex2 : Option (List AlarmEntry)) (ind1 ind2 : Option Indicators) :
    calculateAlarmList sq prices ex1 = calculateAlarmList sq prices ex2 ∧
    calculateTechnicalIndicators sq prices ind1 = calculateTechnicalIndicators sq prices ind2 :=
  ⟨rfl, rfl⟩

/-- Concrete single-point series for the C1 counterexample: with one price
point, every N-week-low combination has too little history. -/
def C1series : List PricePoint := [⟨500, 0, 0, 0, 1, 0⟩]

/-- A concrete stand-in for `Math.sqrt` in the C1 concrete evaluations
(its value is irrelevant: with one point no Bollinger window is formed). -/
def C1sq : Rat → Rat := fun _ => 0

theorem C1_counterexample_low_entry_missing :
    ¬ ∃ e ∈ calculateAlarmList C1sq C1series none, e.alarmName = "4WeekLow0Fluctuation" := by
  decide

/-- C1 (amended): one builder run produces an alarm-catalogue entry for
every requested parameter combination of the N-week-high, MA-cross,
daily-change, RSI and Bollinger families, with `previousTriggeredDate =
null` when the history is too short (shown for the high family), and never
an exception (the builder is a total function).  For the N-week-low family
an entry is present when `prices.length ≥ weeks·5`; shorter histories make
the builder skip the whole week period, so those combinations are missing
from the catalogue. -/
theorem C1_catalogue_entries (sq : Rat → Rat) (prices : List PricePoint)
    (ex : Option (List AlarmEntry)) :
    (∀ weeks ∈ [4, 8, 12, 24, 32, 52], ∀ f ∈ [0, 10, 20],
      (weeks * 5 ≤ prices.length →
        ∃ e ∈ calculateAlarmList sq prices ex,
          e.alarmName = toString weeks ++ "WeekLow" ++ toString f ++ "Fluctuation" ∧
          e.params = .nweekLow weeks f) ∧
      (prices.length < weeks * 5 →
        ∀ t ∈ NWeekLow.calculateAllNWeekLowTriggers prices [4, 8, 12, 24, 32, 52] [0, 10, 20],
          t.weeks ≠ weeks) ∧
      (∃ e ∈ calculateAlarmList sq prices ex,
        e.alarmName = toString weeks ++ "WeekHigh" ++ toString f ++ "Fluctuation" ∧
        e.params = .nweekHigh weeks f) ∧
      (prices.length ≤ weeks * 5 → NWeekHigh.findMostRecentTriggerDate prices weeks f = none)) ∧
    (∀ i j, i < j → j < 4 →
      ∀ dir ∈ [MovingAverage.MADirection.above, .below, .crossUp, .crossDown],
        ∃ e ∈ calculateAlarmList sq prices ex,
          e.params = .maCross ([10, 50, 100, 200].getD i 0) ([10, 50, 100, 200].getD j 0) dir) ∧
    (∀ t ∈ [1, 2, 3, 4, 5],
      (∃ e ∈ calculateAlarmList sq prices ex,
        e.alarmName = "DailyLoss" ++ toString t ++ "Percent") ∧
      (∃ e ∈ calculateAlarmList sq prices ex,
        e.alarmName = "DailyGain" ++ toString t ++ "Percent")) ∧
    (∀ t ∈ [10, 20, 30], ∃ e ∈ calculateAlarmList sq prices ex,
      e.alarmName = "RSIOversold" ++ toString t) ∧
    (∀ t ∈ [70, 80, 90], ∃ e ∈ calculateAlarmList sq prices ex,
      e.alarmName = "RSIOverbought" ++ toString t) ∧
    (∀ d ∈ [0, 5, 10],
      (∃ e ∈ calculateAlarmList sq prices ex,
        e.alarmName = "BBLower20Period2StdDev" ++ toString d ++ "Pct") ∧
      (∃ e ∈ calculateAlarmList sq prices ex,
        e.alarmName = "BBUpper20Period2StdDev" ++ toString d ++ "Pct")) := by
  refine ⟨?_, ?_, ?_, ?_, ?_, ?_⟩
  · intro weeks hw f hf
    refine ⟨?_, ?_, ?_, ?_⟩
    · intro hlen
      have hmem : (⟨toString weeks ++ "WeekLow" ++ toString f ++ "Fluctuation",
          AlarmParams.nweekLow weeks f,
          NWeekLow.findMostRecentTriggerDate prices weeks f⟩ : AlarmEntry)
          ∈ calculateAlarmList sq prices ex := by
        rw [calculateAlarmList]
        apply List.mem_append_left
        apply List.mem_append_left
        apply List.mem_append_left
        apply List.mem_append_left
        apply List.mem_append_left
        apply List.mem_map.mpr
        refine ⟨⟨weeks, f, NWeekLow.findMostRecentTriggerDate prices weeks f⟩, ?_, rfl⟩
        rw [NWeekLow.calculateAllNWeekLowTriggers]
        apply List.mem_flatMap.mpr
        exact ⟨weeks, hw, by rw [if_neg (by omega)]; exact List.mem_map_of_mem _ hf⟩
      exact ⟨_, hmem, rfl, rfl⟩
    · intro hlen t ht
      obtain ⟨w', hw', ht'⟩ := List.mem_flatMap.mp ht
      by_cases hcond : prices.length < w' * 5
      · rw [if_pos hcond] at ht'
        cases ht'
      · rw [if_neg hcond] at ht'
        obtain ⟨f', _, hfe⟩ := List.mem_map.mp ht'
        subst hfe
        show w' ≠ weeks
        omega
    · have hmem : (⟨toString weeks ++ "WeekHigh" ++ toString f ++ "Fluctuation",
          AlarmParams.nweekHigh weeks f,
          NWeekHigh.findMostRecentTriggerDate prices weeks f⟩ : AlarmEntry)
          ∈ calculateAlarmList sq prices ex := by
        rw [calculateAlarmList]
        apply List.mem_append_left
        apply List.mem_append_left
        apply List.mem_append_left
        apply List.mem_append_left
        apply List.mem_append_right
        apply List.mem_map.mpr
        refine ⟨⟨weeks, f, NWeekHigh.findMostRecentTriggerDate prices weeks f⟩, ?_, rfl⟩
        rw [NWeekHigh.calculateAllNWeekHighTriggers]
        apply List.mem_flatMap.mpr
        exact ⟨weeks, hw, List.mem_map_of_mem _ hf⟩
      exact ⟨_, hmem, rfl, rfl⟩
    · intro hlen
      simp only [NWeekHigh.findMostRecentTriggerDate]
      rw [findBackFrom, if_pos (by omega)]
      rfl
  · intro i j hij hj4 dir hdir
    have hjmem : j ∈ (List.range 4).drop (i + 1) := by
      have hi3 : i < 3 := by omega
      interval_cases i <;> interval_cases j <;> decide
    have hdircases : dir = .above ∨ dir = .below ∨ dir = .crossUp ∨ dir = .crossDown := by
      simpa using hdir
    rcases hdircases with rfl | rfl | rfl | rfl
    · refine ⟨⟨"MA" ++ toString (([10, 50, 100, 200] : List Nat).getD i 0)
          ++ (MovingAverage.MADirection.above).directionStr ++ "MA"
          ++ toString (([10, 50, 100, 200] : List Nat).getD j 0),
        .maCross ([10, 50, 100, 200].getD i 0) ([10, 50, 100, 200].getD j 0) .above,
        MovingAverage.findMostRecentMAPosition prices ([10, 50, 100, 200].getD i 0)
          ([10, 50, 100, 200].getD j 0) .above⟩, ?_, rfl⟩
      rw [calculateAlarmList]
      apply List.mem_append_left
      apply List.mem_append_left
      apply List.mem_append_left
      apply List.mem_append_right
      apply List.mem_map.mpr
      refine ⟨⟨[10, 50, 100, 200].getD i 0, [10, 50, 100, 200].getD j 0, .above,
        MovingAverage.findMostRecentMAPosition prices ([10, 50, 100, 200].getD i 0)
          ([10, 50, 100, 200].getD j 0) .above⟩, ?_, rfl⟩
      rw [MovingAverage.calculateAllMACrossTriggers]
      apply List.mem_flatMap.mpr
      refine ⟨i, ?_, ?_⟩
      · rw [show ([10, 50, 100, 200] : List Nat).length = 4 from rfl]
        exact List.mem_range.mpr (by omega)
      · apply List.mem_flatMap.mpr
        refine ⟨j, ?_, ?_⟩
        · rw [show ([10, 50, 100, 200] : List Nat).length = 4 from rfl]
          exact hjmem
        · apply List.mem_map.mpr
          exact ⟨.above, by decide, rfl⟩
    · refine ⟨⟨"MA" ++ toString (([10, 50, 100, 200] : List Nat).getD i 0)
          ++ (MovingAverage.MADirection.below).directionStr ++ "MA"
          ++ toString (([10, 50, 100, 200] : List Nat).getD j 0),
        .maCross ([10, 50, 100, 200].getD i 0) ([10, 50, 100, 200].getD j 0) .below,
        MovingAverage.findMostRecentMAPosition prices ([10, 50, 100, 200].getD i 0)
          ([10, 50, 100, 200].getD j 0) .below⟩, ?_, rfl⟩
      rw [calculateAlarmList]
      apply List.mem_append_left
      apply List.mem_append_left
      apply List.mem_append_left
      apply List.mem_append_right
      apply List.mem_map.mpr
      refine ⟨⟨[10, 50, 100, 200].getD i 0, [10, 50, 100, 200].getD j 0, .below,
        MovingAverage.findMostRecentMAPosition prices ([10, 50, 100, 200].getD i 0)
          ([10, 50, 100, 200].getD j 0) .below⟩, ?_, rfl⟩
      rw [MovingAverage.calculateAllMACrossTriggers]
      apply List.mem_flatMap.mpr
      refine ⟨i, ?_, ?_⟩
      · rw [show ([10, 50, 100, 200] : List Nat).length = 4 from rfl]
        exact List.mem_range.mpr (by omega)
      · apply List.mem_flatMap.mpr
        refine ⟨j, ?_, ?_⟩
        · rw [show ([10, 50, 100, 200] : List Nat).length = 4 from rfl]
          exact hjmem
        · apply List.mem_map.mpr
          exact ⟨.below, by decide, rfl⟩
    · refine ⟨⟨"MA" ++ toString (([10, 50, 100, 200] : List Nat).getD i 0)
          ++ (MovingAverage.MADirection.crossUp).directionStr ++ "MA"
          ++ toString (([10, 50, 100, 200] : List Nat).getD j 0),
        .maCross ([10, 50, 100, 200].getD i 0) ([10, 50, 100, 200].getD j 0) .crossUp,
        MovingAverage.findMostRecentMACrossMA prices ([10, 50, 100, 200].getD i 0)
          ([10, 50, 100, 200].getD j 0) .golden⟩, ?_, rfl⟩
      rw [calculateAlarmList]
      apply List.mem_append_left
      apply List.mem_append_left
      apply List.mem_append_left
      apply List.mem_append_right
      apply List.mem_map.mpr
      refine ⟨⟨[10, 50, 100, 200].getD i 0, [10, 50, 100, 200].getD j 0, .crossUp,
        MovingAverage.findMostRecentMACrossMA prices ([10, 50, 100, 200].getD i 0)
          ([10, 50, 100, 200].getD j 0) .golden⟩, ?_, rfl⟩
      rw [MovingAverage.calculateAllMACrossTriggers]
      apply List.mem_flatMap.mpr
      refine ⟨i, ?_, ?_⟩
      · rw [show ([10, 50, 100, 200] : List Nat).length = 4 from rfl]
        exact List.mem_range.mpr (by omega)
      · apply List.mem_flatMap.mpr
        refine ⟨j, ?_, ?_⟩
        · rw [show ([10, 50, 100, 200] : List Nat).length = 4 from rfl]
          exact hjmem
        · apply List.mem_map.mpr
          exact ⟨.crossUp, by decide, rfl⟩
    · refine ⟨⟨"MA" ++ toString (([10, 50, 100, 200] : List Nat).getD i 0)
          ++ (MovingAverage.MADirection.crossDown).directionStr ++ "MA"
          ++ toString (([10, 50, 100, 200] : List Nat).getD j 0),
        .maCross ([10, 50, 100, 200].getD i 0) ([10, 50, 100, 200].getD j 0) .crossDown,
        MovingAverage.findMostRecentMACrossMA prices ([10, 50, 100, 200].getD i 0)
          ([10, 50, 100, 200].getD j 0) .death⟩, ?_, rfl⟩
      rw [calculateAlarmList]
      apply List.mem_append_left
      apply List.mem_append_left
      apply List.mem_append_left
      apply List.mem_append_right
      apply List.mem_map.mpr
      refine ⟨⟨[10, 50, 100, 200].getD i 0, [10, 50, 100, 200].getD j 0, .crossDown,
        MovingAverage.findMostRecentMACrossMA prices ([10, 50, 100, 200].getD i 0)
          ([10, 50, 100, 200].getD j 0) .death⟩, ?_, rfl⟩
      rw [MovingAverage.calculateAllMACrossTriggers]
      apply List.mem_flatMap.mpr
      refine ⟨i, ?_, ?_⟩
      · rw [show ([10, 50, 100, 200] : List Nat).length = 4 from rfl]
        exact List.mem_range.mpr (by omega)
      · apply List.mem_flatMap.mpr
        refine ⟨j, ?_, ?_⟩
        · rw [show ([10, 50, 100, 200] : List Nat).length = 4 from rfl]
          exact hjmem
        · apply List.mem_map.mpr
          exact ⟨.crossDown, by decide, rfl⟩
  · intro t ht
    constructor
    · have hmem : (⟨"DailyLoss" ++ toString t ++ "Percent", AlarmParams.daily "daily-loss" t,
          DailyChange.findMostRecentDailyLossTriggerDate prices (t : Rat)⟩ : AlarmEntry)
          ∈ calculateAlarmList sq prices ex := by
        rw [calculateAlarmList]
        apply List.mem_append_left
        apply List.mem_append_left
        apply List.mem_append_right
        apply List.mem_map.mpr
        refine ⟨⟨"DailyLoss" ++ toString t ++ "Percent", "daily-loss", t,
          DailyChange.findMostRecentDailyLossTriggerDate prices (t : Rat)⟩, ?_, rfl⟩
        rw [DailyChange.calculateAllDailyChangeTriggers]
        apply List.mem_append_left
        exact List.mem_map_of_mem _ ht
      exact ⟨_, hmem, rfl⟩
    · have hmem : (⟨"DailyGain" ++ toString t ++ "Percent", AlarmParams.daily "daily-gain" t,
          DailyChange.findMostRecentDailyGainTriggerDate prices (t : Rat)⟩ : AlarmEntry)
          ∈ calculateAlarmList sq prices ex := by
        rw [calculateAlarmList]
        apply List.mem_append_left
        apply List.mem_append_left
        apply List.mem_append_right
        apply List.mem_map.mpr
        refine ⟨⟨"DailyGain" ++ toString t ++ "Percent", "daily-gain", t,
          DailyChange.findMostRecentDailyGainTriggerDate prices (t : Rat)⟩, ?_, rfl⟩
        rw [DailyChange.calculateAllDailyChangeTriggers]
        apply List.mem_append_right
        exact List.mem_map_of_mem _ ht
      exact ⟨_, hmem, rfl⟩
  · intro t ht
    have hmem : (⟨"RSIOversold" ++ toString t, AlarmParams.rsi "rsi-oversold" t 14,
        RSI.findMostRecentRSIOversoldTriggerDate prices (t : Rat) 14⟩ : AlarmEntry)
        ∈ calculateAlarmList sq prices ex := by
      rw [calculateAlarmList]
      apply List.mem_append_left
      apply List.mem_append_right
      apply List.mem_map.mpr
      refine ⟨⟨"RSIOversold" ++ toString t, "rsi-oversold", t, 14,
        RSI.findMostRecentRSIOversoldTriggerDate prices (t : Rat) 14⟩, ?_, rfl⟩
      rw [RSI.calculateAllRSITriggers]
      apply List.mem_append_left
      exact List.mem_map_of_mem _ ht
    exact ⟨_, hmem, rfl⟩
  · intro t ht
    have hmem : (⟨"RSIOverbought" ++ toString t, AlarmParams.rsi "rsi-overbought" t 14,
        RSI.findMostRecentRSIOverboughtTriggerDate prices (t : Rat) 14⟩ : AlarmEntry)
        ∈ calculateAlarmList sq prices ex := by
      rw [calculateAlarmList]
      apply List.mem_append_left
      apply List.mem_append_right
      apply List.mem_map.mpr
      refine ⟨⟨"RSIOverbought" ++ toString t, "rsi-overbought", t, 14,
        RSI.findMostRecentRSIOverboughtTriggerDate prices (t : Rat) 14⟩, ?_, rfl⟩
      rw [RSI.calculateAllRSITriggers]
      apply List.mem_append_right
      exact List.mem_map_of_mem _ ht
    exact ⟨_, hmem, rfl⟩
  · intro d hd
    constructor
    · have hmem : (⟨"BBLower20Period2StdDev" ++ toString d ++ "Pct",
          AlarmParams.bb "bb-lower" 20 2 d,
          BollingerBands.findMostRecentBBLowerTriggerDate sq prices 20 (2 : Rat) d⟩
            : AlarmEntry)
          ∈ calculateAlarmList sq prices ex := by
        rw [calculateAlarmList]
        apply List.mem_append_right
        apply List.mem_map.mpr
        refine ⟨⟨"BBLower20Period2StdDev" ++ toString d ++ "Pct", "bb-lower", 20, 2, d,
          BollingerBands.findMostRecentBBLowerTriggerDate sq prices 20 ((2 : Nat) : Rat) d⟩,
          ?_, rfl⟩
        rw [BollingerBands.calculateAllBBTriggers]
        apply List.mem_append_left
        exact List.mem_map_of_mem _ hd
      exact ⟨_, hmem, rfl⟩
    · have hmem : (⟨"BBUpper20Period2StdDev" ++ toString d ++ "Pct",
          AlarmParams.bb "bb-upper" 20 2 d,
          BollingerBands.findMostRecentBBUpperTriggerDate sq prices 20 (2 : Rat) d⟩
            : AlarmEntry)
          ∈ calculateAlarmList sq prices ex := by
        rw [calculateAlarmList]
        apply List.mem_append_right
        apply List.mem_map.mpr
        refine ⟨⟨"BBUpper20Period2StdDev" ++ toString d ++ "Pct", "bb-upper", 20, 2, d,
          BollingerBands.findMostRecentBBUpperTriggerDate sq prices 20 ((2 : Nat) : Rat) d⟩,
          ?_, rfl⟩
        rw [BollingerBands.calculateAllBBTriggers]
        apply List.mem_append_right
        exact List.mem_map_of_mem _ hd
      exact ⟨_, hmem, rfl⟩

theorem C1_catalogue_entries_witness :
    (∃ e ∈ calculateAlarmList C1sq C1series none,
      e.alarmName = toString 4 ++ "WeekHigh" ++ toString 0 ++ "Fluctuation" ∧
      e.params = .nweekHigh 4 0) ∧
    NWeekHigh.findMostRecentTriggerDate C1series 4 0 = none := by
  have h := (C1_catalogue_entries C1sq C1series none).1 4 (by decide) 0 (by decide)
  exact ⟨h.2.2.1, h.2.2.2 (by decide)⟩

section DateCloseOnly

/-- The `(date, close)` projection of a price point: the observation C10
says the whole catalogue factors through. -/
def dateClose (p : PricePoint) : Nat × Rat := (p.date, p.close)

theorem length_eq_of_dc {l1 l2 : List PricePoint} (h : l1.map dateClose = l2.map dateClose) :
    l1.length = l2.length := by
  have := congrArg List.length h
  simpa using this

theorem closeAt_congr {l1 l2 : List PricePoint} (h : l1.map dateClose = l2.map dateClose)
    (i : Nat) : closeAt l1 i = closeAt l2 i := by
  have key : ∀ l : List PricePoint,
      (((l.map dateClose)[i]?).map (·.2)).getD 0 = closeAt l i := by
    intro l
    simp only [closeAt, List.get?_eq_getElem?, List.getElem?_map]
    cases l[i]? <;> rfl
  rw [← key l1, ← key l2, h]

theorem dateAt_congr {l1 l2 : List PricePoint} (h : l1.map dateClose = l2.map dateClose)
    (i : Nat) : dateAt l1 i = dateAt l2 i := by
  have key : ∀ l : List PricePoint,
      ((l.map dateClose)[i]?).map (·.1) = dateAt l i := by
    intro l
    simp only [dateAt, List.get?_eq_getElem?, List.getElem?_map]
    cases l[i]? <;> rfl
  rw [← key l1, ← key l2, h]

theorem sliceCloses_congr {l1 l2 : List PricePoint} (h : l1.map dateClose = l2.map dateClose)
    (a n : Nat) : sliceCloses l1 a n = sliceCloses l2 a n := by
  have key : ∀ l : List PricePoint,
      (((l.map dateClose).drop a).take n).map (·.2) = sliceCloses l a n := by
    intro l
    rw [← List.map_drop, ← List.map_take, List.map_map]
    rfl
  rw [← key l1, ← key l2, h]

theorem checkNWeekLowTrigger_congr {l1 l2 : List PricePoint}
    (h : l1.map dateClose = l2.map dateClose) (i w f : Nat) :
    NWeekLow.checkNWeekLowTrigger l1 i w f = NWeekLow.checkNWeekLowTrigger l2 i w f := by
  simp only [NWeekLow.checkNWeekLowTrigger, length_eq_of_dc h, closeAt_congr h,
    sliceCloses_congr h]

theorem checkNWeekHighTrigger_congr {l1 l2 : List PricePoint}
    (h : l1.map dateClose = l2.map dateClose) (i w f : Nat) :
    NWeekHigh.checkNWeekHighTrigger l1 i w f = NWeekHigh.checkNWeekHighTrigger l2 i w f := by
  simp only [NWeekHigh.checkNWeekHighTrigger, length_eq_of_dc h, closeAt_congr h,
    sliceCloses_congr h]

theorem nWeekLowFind_congr {l1 l2 : List PricePoint}
    (h : l1.map dateClose = l2.map dateClose) (w f : Nat) :
    NWeekLow.findMostRecentTriggerDate l1 w f = NWeekLow.findMostRecentTriggerDate l2 w f := by
  have hd : dateAt l1 = dateAt l2 := funext (dateAt_congr h)
  simp only [NWeekLow.findMostRecentTriggerDate, checkNWeekLowTrigger_congr h,
    length_eq_of_dc h, hd]

theorem nWeekHighFind_congr {l1 l2 : List PricePoint}
    (h : l1.map dateClose = l2.map dateClose) (w f : Nat) :
    NWeekHigh.findMostRecentTriggerDate l1 w f = NWeekHigh.findMostRecentTriggerDate l2 w f := by
  have hd : dateAt l1 = dateAt l2 := funext (dateAt_congr h)
  simp only [NWeekHigh.findMostRecentTriggerDate, checkNWeekHighTrigger_congr h,
    length_eq_of_dc h, hd]

theorem calculateAllNWeekLowTriggers_congr {l1 l2 : List PricePoint}
    (h : l1.map dateClose = l2.map dateClose) (ws fs : List Nat) :
    NWeekLow.calculateAllNWeekLowTriggers l1 ws fs
      = NWeekLow.calculateAllNWeekLowTriggers l2 ws fs := by
  simp only [NWeekLow.calculateAllNWeekLowTriggers, nWeekLowFind_congr h, length_eq_of_dc h]

theorem calculateAllNWeekHighTriggers_congr {l1 l2 : List PricePoint}
    (h : l1.map dateClose = l2.map dateClose) (ws fs : List Nat) :
    NWeekHigh.calculateAllNWeekHighTriggers l1 ws fs
      = NWeekHigh.calculateAllNWeekHighTriggers l2 ws fs := by
  simp only [NWeekHigh.calculateAllNWeekHighTriggers, nWeekHighFind_congr h]

theorem calculateMA_congr {l1 l2 : List PricePoint}
    (h : l1.map dateClose = l2.map dateClose) (i p : Nat) :
    MovingAverage.calculateMA l1 i p = MovingAverage.calculateMA l2 i p := by
  simp only [MovingAverage.calculateMA, sliceCloses_congr h]

theorem checkMACrossMA_congr {l1 l2 : List PricePoint}
    (h : l1.map dateClose = l2.map dateClose) (i sp lp : Nat) :
    MovingAverage.checkMACrossMA l1 i sp lp = MovingAverage.checkMACrossMA l2 i sp lp := by
  simp only [MovingAverage.checkMACrossMA, calculateMA_congr h]

theorem findMostRecentMACrossMA_congr {l1 l2 : List PricePoint}
    (h : l1.map dateClose = l2.map dateClose) (sp lp : Nat)
    (dir : MovingAverage.CrossFilter) :
    MovingAverage.findMostRecentMACrossMA l1 sp lp dir
      = MovingAverage.findMostRecentMACrossMA l2 sp lp dir := by
  have hd : dateAt l1 = dateAt l2 := funext (dateAt_congr h)
  simp only [MovingAverage.findMostRecentMACrossMA, checkMACrossMA_congr h,
    length_eq_of_dc h, hd]

theorem findMostRecentMAPosition_congr {l1 l2 : List PricePoint}
    (h : l1.map dateClose = l2.map dateClose) (p1 p2 : Nat)
    (dir : MovingAverage.MADirection) :
    MovingAverage.findMostRecentMAPosition l1 p1 p2 dir
      = MovingAverage.findMostRecentMAPosition l2 p1 p2 dir := by
  have hd : dateAt l1 = dateAt l2 := funext (dateAt_congr h)
  simp only [MovingAverage.findMostRecentMAPosition, calculateMA_congr h,
    length_eq_of_dc h, hd]

theorem calculateAllMACrossTriggers_congr {l1 l2 : List PricePoint}
    (h : l1.map dateClose = l2.map dateClose) (ps : List Nat)
    (ds : List MovingAverage.MADirection) :
    MovingAverage.calculateAllMACrossTriggers l1 ps ds
      = MovingAverage.calculateAllMACrossTriggers l2 ps ds := by
  simp only [MovingAverage.calculateAllMACrossTriggers, findMostRecentMACrossMA_congr h,
    findMostRecentMAPosition_congr h]

theorem checkDailyLossTrigger_congr {l1 l2 : List PricePoint}
    (h : l1.map dateClose = l2.map dateClose) (i : Nat) (t : Rat) :
    DailyChange.checkDailyLossTrigger l1 i t = DailyChange.checkDailyLossTrigger l2 i t := by
  simp only [DailyChange.checkDailyLossTrigger, length_eq_of_dc h, closeAt_congr h]

theorem checkDailyGainTrigger_congr {l1 l2 : List PricePoint}
    (h : l1.map dateClose = l2.map dateClose) (i : Nat) (t : Rat) :
    DailyChange.checkDailyGainTrigger l1 i t = DailyChange.checkDailyGainTrigger l2 i t := by
  simp only [DailyChange.checkDailyGainTrigger, length_eq_of_dc h, closeAt_congr h]

theorem findDailyLoss_congr {l1 l2 : List PricePoint}
    (h : l1.map dateClose = l2.map dateClose) (t : Rat) :
    DailyChange.findMostRecentDailyLossTriggerDate l1 t
      = DailyChange.findMostRecentDailyLossTriggerDate l2 t := by
  have hd : dateAt l1 = dateAt l2 := funext (dateAt_congr h)
  simp only [DailyChange.findMostRecentDailyLossTriggerDate, checkDailyLossTrigger_congr h,
    length_eq_of_dc h, hd]

theorem findDailyGain_congr {l1 l2 : List PricePoint}
    (h : l1.map dateClose = l2.map dateClose) (t : Rat) :
    DailyChange.findMostRecentDailyGainTriggerDate l1 t
      = DailyChange.findMostRecentDailyGainTriggerDate l2 t := by
  have hd : dateAt l1 = dateAt l2 := funext (dateAt_congr h)
  simp only [DailyChange.findMostRecentDailyGainTriggerDate, checkDailyGainTrigger_congr h,
    length_eq_of_dc h, hd]

theorem calculateAllDailyChangeTriggers_congr {l1 l2 : List PricePoint}
    (h : l1.map dateClose = l2.map dateClose) :
    DailyChange.calculateAllDailyChangeTriggers l1
      = DailyChange.calculateAllDailyChangeTriggers l2 := by
  simp only [DailyChange.calculateAllDailyChangeTriggers, findDailyLoss_congr h,
    findDailyGain_congr h]

theorem seedGains_congr {l1 l2 : List PricePoint}
    (h : l1.map dateClose = l2.map dateClose) (p : Nat) :
    RSI.seedGains l1 p = RSI.seedGains l2 p := by
  simp only [RSI.seedGains, closeAt_congr h]

theorem seedLosses_congr {l1 l2 : List PricePoint}
    (h : l1.map dateClose = l2.map dateClose) (p : Nat) :
    RSI.seedLosses l1 p = RSI.seedLosses l2 p := by
  simp only [RSI.seedLosses, closeAt_congr h]

theorem wilderAvgs_congr {l1 l2 : List PricePoint}
    (h : l1.map dateClose = l2.map dateClose) (p : Nat) :
    ∀ j, RSI.wilderAvgs l1 p j = RSI.wilderAvgs l2 p j := by
  intro j
  induction j with
  | zero => simp only [RSI.wilderAvgs, seedGains_congr h, seedLosses_congr h]
  | succ j ih => simp only [RSI.wilderAvgs, ih, closeAt_congr h]

theorem calculateRSI_congr {l1 l2 : List PricePoint}
    (h : l1.map dateClose = l2.map dateClose) (p : Nat) :
    RSI.calculateRSI l1 p = RSI.calculateRSI l2 p := by
  simp only [RSI.calculateRSI, length_eq_of_dc h, wilderAvgs_congr h]

theorem checkRSIOversoldTrigger_congr {l1 l2 : List PricePoint}
    (h : l1.map dateClose = l2.map dateClose) (i : Nat) (t : Rat) (p : Nat) :
    RSI.checkRSIOversoldTrigger l1 i t p = RSI.checkRSIOversoldTrigger l2 i t p := by
  simp only [RSI.checkRSIOversoldTrigger, length_eq_of_dc h, calculateRSI_congr h]

theorem checkRSIOverboughtTrigger_congr {l1 l2 : List PricePoint}
    (h : l1.map dateClose = l2.map dateClose) (i : Nat) (t : Rat) (p : Nat) :
    RSI.checkRSIOverboughtTrigger l1 i t p = RSI.checkRSIOverboughtTrigger l2 i t p := by
  simp only [RSI.checkRSIOverboughtTrigger, length_eq_of_dc h, calculateRSI_congr h]

theorem findRSIOversold_congr {l1 l2 : List PricePoint}
    (h : l1.map dateClose = l2.map dateClose) (t : Rat) (p : Nat) :
    RSI.findMostRecentRSIOversoldTriggerDate l1 t p
      = RSI.findMostRecentRSIOversoldTriggerDate l2 t p := by
  have hd : dateAt l1 = dateAt l2 := funext (dateAt_congr h)
  simp only [RSI.findMostRecentRSIOversoldTriggerDate, checkRSIOversoldTrigger_congr h,
    length_eq_of_dc h, hd]

theorem findRSIOverbought_congr {l1 l2 : List PricePoint}
    (h : l1.map dateClose = l2.map dateClose) (t : Rat) (p : Nat) :
    RSI.findMostRecentRSIOverboughtTriggerDate l1 t p
      = RSI.findMostRecentRSIOverboughtTriggerDate l2 t p := by
  have hd : dateAt l1 = dateAt l2 := funext (dateAt_congr h)
  simp only [RSI.findMostRecentRSIOverboughtTriggerDate, checkRSIOverboughtTrigger_congr h,
    length_eq_of_dc h, hd]

theorem calculateAllRSITriggers_congr {l1 l2 : List PricePoint}
    (h : l1.map dateClose = l2.map dateClose) (p : Nat) :
    RSI.calculateAllRSITriggers l1 p = RSI.calculateAllRSITriggers l2 p := by
  simp only [RSI.calculateAllRSITriggers, findRSIOversold_congr h, findRSIOverbought_congr h]

theorem calculateBollingerBands_congr (sq : Rat → Rat) {l1 l2 : List PricePoint}
    (h : l1.map dateClose = l2.map dateClose) (i p : Nat) (sd : Rat) :
    BollingerBands.calculateBollingerBands sq l1 i p sd
      = BollingerBands.calculateBollingerBands sq l2 i p sd := by
  simp only [BollingerBands.calculateBollingerBands, length_eq_of_dc h, sliceCloses_congr h]

theorem checkBBLowerTrigger_isTriggered_congr (sq : Rat → Rat) {l1 l2 : List PricePoint}
    (h : l1.map dateClose = l2.map dateClose) (i p : Nat) (sd : Rat) (d : Nat) :
    (BollingerBands.checkBBLowerTrigger sq l1 i p sd d).isTriggered
      = (BollingerBands.checkBBLowerTrigger sq l2 i p sd d).isTriggered := by
  rw [BollingerBands.checkBBLowerTrigger, BollingerBands.checkBBLowerTrigger,
    calculateBollingerBands_congr sq h]
  cases hbb : BollingerBands.calculateBollingerBands sq l2 i p sd with
  | none => rfl
  | some bb => simp only [closeAt_congr h]

theorem checkBBUpperTrigger_isTriggered_congr (sq : Rat → Rat) {l1 l2 : List PricePoint}
    (h : l1.map dateClose = l2.map dateClose) (i p : Nat) (sd : Rat) (d : Nat) :
    (BollingerBands.checkBBUpperTrigger sq l1 i p sd d).isTriggered
      = (BollingerBands.checkBBUpperTrigger sq l2 i p sd d).isTriggered := by
  rw [BollingerBands.checkBBUpperTrigger, BollingerBands.checkBBUpperTrigger,
    calculateBollingerBands_congr sq h]
  cases hbb : BollingerBands.calculateBollingerBands sq l2 i p sd with
  | none => rfl
  | some bb => simp only [closeAt_congr h]

theorem findBBLower_congr (sq : Rat → Rat) {l1 l2 : List PricePoint}
    (h : l1.map dateClose = l2.map dateClose) (p : Nat) (sd : Rat) (d : Nat) :
    BollingerBands.findMostRecentBBLowerTriggerDate sq l1 p sd d
      = BollingerBands.findMostRecentBBLowerTriggerDate sq l2 p sd d := by
  have hd : dateAt l1 = dateAt l2 := funext (dateAt_congr h)
  simp only [BollingerBands.findMostRecentBBLowerTriggerDate,
    checkBBLowerTrigger_isTriggered_congr sq h, length_eq_of_dc h, hd]

theorem findBBUpper_congr (sq : Rat → Rat) {l1 l2 : List PricePoint}
    (h : l1.map dateClose = l2.map dateClose) (p : Nat) (sd : Rat) (d : Nat) :
    BollingerBands.findMostRecentBBUpperTriggerDate sq l1 p sd d
      = BollingerBands.findMostRecentBBUpperTriggerDate sq l2 p sd d := by
  have hd : dateAt l1 = dateAt l2 := funext (dateAt_congr h)
  simp only [BollingerBands.findMostRecentBBUpperTriggerDate,
    checkBBUpperTrigger_isTriggered_congr sq h, length_eq_of_dc h, hd]

theorem calculateAllBBTriggers_congr (sq : Rat → Rat) {l1 l2 : List PricePoint}
    (h : l1.map dateClose = l2.map dateClose) (p sd : Nat) (ds : List Nat) :
    BollingerBands.calculateAllBBTriggers sq l1 p sd ds
      = BollingerBands.calculateAllBBTriggers sq l2 p sd ds := by
  simp only [BollingerBands.calculateAllBBTriggers, findBBLower_congr sq h,
    findBBUpper_congr sq h]

end DateCloseOnly

/-- C10: every trigger decision and every `previousTriggeredDate` in the
catalogue depends only on the `date` and `close` fields of the price
points: two series that agree pointwise on `(date, close)` produce
identical catalogues, whatever their `open`, `high`, `low` and `volume`
fields are (and for any interpretation of `Math.sqrt`); in particular the
Bollinger touch detectors compare only the close against the band
thresholds. -/
theorem C10_date_close_only (sq : Rat → Rat) (l1 l2 : List PricePoint)
    (ex : Option (List AlarmEntry)) (h : l1.map dateClose = l2.map dateClose) :
    calculateAlarmList sq l1 ex = calculateAlarmList sq l2 ex ∧
    (∀ (i p : Nat) (sd : Rat) (d : Nat),
      (BollingerBands.checkBBLowerTrigger sq l1 i p sd d).isTriggered
        = (BollingerBands.checkBBLowerTrigger sq l2 i p sd d).isTriggered ∧
      (BollingerBands.checkBBUpperTrigger sq l1 i p sd d).isTriggered
        = (BollingerBands.checkBBUpperTrigger sq l2 i p sd d).isTriggered) := by
  refine ⟨?_, fun i p sd d =>
    ⟨checkBBLowerTrigger_isTriggered_congr sq h i p sd d,
     checkBBUpperTrigger_isTriggered_congr sq h i p sd d⟩⟩
  simp only [calculateAlarmList, calculateAllNWeekLowTriggers_congr h,
    calculateAllNWeekHighTriggers_congr h, calculateAllMACrossTriggers_congr h,
    calculateAllDailyChangeTriggers_congr h, calculateAllRSITriggers_congr h,
    calculateAllBBTriggers_congr sq h]

/-- Two 2-point series for the C10 witness: identical dates and closes,
entirely different open/high/low/volume fields. -/
def C10seriesA : List PricePoint :=
  [⟨600, 1, 2, 0, 10, 5⟩, ⟨601, 3, 4, 1, 11, 6⟩]

/-- Counterpart of `C10seriesA` with different non-close fields. -/
def C10seriesB : List PricePoint :=
  [⟨600, 9, 8, 7, 10, 99⟩, ⟨601, 2, 9, 0, 11, 42⟩]

theorem C10_date_close_only_witness :
    C10seriesA.map dateClose = C10seriesB.map dateClose ∧
    calculateAlarmList C1sq C10seriesA none = calculateAlarmList C1sq C10seriesB none := by
  have hmap : C10seriesA.map dateClose = C10seriesB.map dateClose := rfl
  exact ⟨hmap, (C10_date_close_only C1sq C10seriesA C10seriesB none hmap).1⟩
